import Mathlib

/-!
Shallow embedding of the video_game_db_app ingestion pipeline.

The definitions below are translated from the TypeScript sources:
* `scripts/wikidata/hydrateGamesFromClaims.ts` (claim normalization and batch writer),
* `scripts/wikidata/propertyRegistry.ts` (the property registry),
* the roster crawler `fetchGamesByPlatform` script,
* `scripts/wiki/wikiClient.ts` (revision-aware cache),
* `scripts/wikidata/lib/config.ts` / `lib/wdqs.ts` (configuration, user agent).

Conventions used throughout the embedding:
* JavaScript strings are Lean `String`s; `String.trim` models `String.prototype.trim`.
* JSON numbers are modelled as `Int` (every number the pipeline inspects —
  Wikidata time precisions and revision ids — is an integer).
* JavaScript `Date` values are modelled by their epoch-millisecond timestamp
  (`Int`), computed with the proleptic-Gregorian day count exactly as
  ECMAScript `Date.UTC` does.
* Database tables are lists of rows; `createMany` with `skipDuplicates` is a
  fold that inserts a row unless it conflicts with an existing one on the
  table's natural unique key (from `prisma/migrations`).
-/

namespace VGDB

/-- Model of JavaScript `Number.parseInt(s, 10)`: skip leading whitespace,
optional sign, then the longest run of decimal digits; `none` models `NaN`. -/
def jsParseInt (s : String) : Option Int :=
  let cs := s.data.dropWhile (fun c => c = ' ' ∨ c = '\t' ∨ c = '\n' ∨ c = '\r')
  let signDigits : Bool × List Char :=
    match cs with
    | '-' :: rest => (true, rest)
    | '+' :: rest => (false, rest)
    | rest => (false, rest)
  let digits := signDigits.2.takeWhile Char.isDigit
  if digits.isEmpty then none
  else
    let mag : Int := digits.foldl (fun acc c => acc * 10 + (c.toNat - '0'.toNat)) 0
    some (if signDigits.1 then -mag else mag)

/-- Model of `String.prototype.trim` (implemented over the character list so
that it evaluates inside the kernel; the JS whitespace set is modelled by
`Char.isWhitespace`). -/
def jsTrim (s : String) : String :=
  String.mk (((s.data.dropWhile Char.isWhitespace).reverse.dropWhile
    Char.isWhitespace).reverse)

/-- Model of `s.startsWith(p)`. -/
def jsStartsWith (s p : String) : Bool :=
  p.data.isPrefixOf s.data

/-- Model of `s.toLowerCase()` (ASCII case mapping). -/
def jsToLower (s : String) : String :=
  String.mk (s.data.map Char.toLower)

/-- Model of `s.toUpperCase()` (ASCII case mapping). -/
def jsToUpper (s : String) : String :=
  String.mk (s.data.map Char.toUpper)

/-- Lexicographic (code-point) order on character lists, non-strict: models
both SPARQL string `>`-comparison and `localeCompare` ordering for QIDs. -/
def charListLe : List Char → List Char → Bool
  | [], _ => true
  | _ :: _, [] => false
  | a :: as, b :: bs =>
    if a.toNat < b.toNat then true
    else if b.toNat < a.toNat then false
    else charListLe as bs

/-- Lexicographic (code-point) order on character lists, strict. -/
def charListLt : List Char → List Char → Bool
  | [], [] => false
  | [], _ :: _ => true
  | _ :: _, [] => false
  | a :: as, b :: bs =>
    if a.toNat < b.toNat then true
    else if b.toNat < a.toNat then false
    else charListLt as bs

/-- Strict lexical order on identifiers (strings). -/
def qidLt (a b : String) : Bool := charListLt a.data b.data

/-- `normalizeString` from `hydrateGamesFromClaims.ts`, restricted to an
actual string input: trim, and return `none` when the result is empty. -/
def normalizeTrimmed (value : String) : Option String :=
  let normalized := jsTrim value
  if normalized.isEmpty then none else some normalized

/-- `n.toString().padStart(2, "0")` for the nonnegative numbers fed to it. -/
def pad2 (n : Int) : String :=
  let s := toString n
  if s.length < 2 then "".pushn '0' (2 - s.length) ++ s else s

/-- Days from the civil epoch 1970-01-01 for year/month(1-12)/day 1, using the
standard proleptic-Gregorian formula (as in ECMAScript `MakeDay`). -/
def daysFromCivilFirst (y : Int) (m : Int) : Int :=
  let y' := if m ≤ 2 then y - 1 else y
  let era : Int := (if y' ≥ 0 then y' else y' - 399) / 400
  let yoe : Int := y' - era * 400
  let mp : Int := (m + 9) % 12
  let doy : Int := (153 * mp + 2) / 5
  let doe : Int := yoe * 365 + yoe / 4 - yoe / 100 + doy
  era * 146097 + doe - 719468

/-- `toUtcDate` from `hydrateGamesFromClaims.ts`: the epoch-millisecond value
of `Date.UTC(year, (month ?? 1) - 1, day ?? 1)`.  ECMAScript computes the day
number for day 1 of the month and adds `day - 1` linearly, which the model
reproduces (so day overflow normalizes into the next month, as in JS). -/
def toUtcDate (year : Int) (month : Option Int) (day : Option Int) : Int :=
  (daysFromCivilFirst year (month.getD 1) + (day.getD 1 - 1)) * 86400000

/-- Hex digit for `encodeURIComponent`. -/
def hexDigit (n : Nat) : Char :=
  if n < 10 then Char.ofNat ('0'.toNat + n) else Char.ofNat ('A'.toNat + n - 10)

/-- Characters `encodeURIComponent` leaves unescaped. -/
def uriUnreserved (c : Char) : Bool :=
  c.isAlphanum || c = '-' || c = '_' || c = '.' || c = '!' || c = '~' ||
    c = '*' || c = '(' || c = ')'

/-- UTF-8 bytes of one scalar value. -/
def utf8Bytes (c : Char) : List Nat :=
  let n := c.toNat
  if n < 0x80 then [n]
  else if n < 0x800 then [0xC0 + n / 64, 0x80 + n % 64]
  else if n < 0x10000 then [0xE0 + n / 4096, 0x80 + n / 64 % 64, 0x80 + n % 64]
  else [0xF0 + n / 262144, 0x80 + n / 4096 % 64, 0x80 + n / 64 % 64, 0x80 + n % 64]

/-- Model of JavaScript `encodeURIComponent`. -/
def encodeURIComponent (s : String) : String :=
  s.data.foldl
    (fun acc c =>
      if uriUnreserved c then acc.push c
      else (utf8Bytes c).foldl
        (fun acc b => (acc.push '%' |>.push (hexDigit (b / 16))).push (hexDigit (b % 16)))
        acc)
    ""

/-- `commonsFileUrl` from `scripts/wikidata/lib/wikidataApi.ts`. -/
def commonsFileUrl (filename : String) : String :=
  "https://commons.wikimedia.org/wiki/Special:FilePath/" ++ encodeURIComponent filename

/-! ### JSON values (`Prisma.JsonValue`) -/

/-- JSON values as stored in `claimsJson` (numbers restricted to integers;
every number the normalization engine inspects is an integer). -/
inductive Json where
  | null : Json
  | bool (b : Bool) : Json
  | num (n : Int) : Json
  | str (s : String) : Json
  | arr (elems : List Json) : Json
  | obj (fields : List (String × Json)) : Json

/-- Object-property access `o[key]`, `undefined` modelled as `none`. -/
def Json.get : Json → String → Option Json
  | .obj fields, key => (fields.find? (fun f => f.1 = key)).map (·.2)
  | _, _ => none

/-- `isObject` from `hydrateGamesFromClaims.ts` (arrays are objects in JS,
but every use first fails the shape checks on arrays; we keep the JS meaning
by letting objects be `obj` nodes only where the code then reads properties). -/
def Json.isObject : Json → Bool
  | .obj _ => true
  | _ => false

def Json.isNull : Json → Bool
  | .null => true
  | _ => false

/-- `asClaimsObject`: a claims document is usable when it is an object. -/
def asClaimsObject (value : Json) : Option Json :=
  if value.isObject then some value else none

/-- `getPropertyStatements`: `claims[propertyId]` when it is an array. -/
def getPropertyStatements (claims : Option Json) (propertyId : String) : List Json :=
  match claims with
  | none => []
  | some c =>
    match c.get propertyId with
    | some (.arr xs) => xs
    | _ => []

/-- `getRankScore` from `hydrateGamesFromClaims.ts`. -/
def getRankScore (rank : Option Json) : Nat :=
  match rank with
  | some (.str "preferred") => 2
  | some (.str "normal") => 1
  | _ => 0

/-- `StatementRank` enum. -/
inductive StatementRank where
  | PREFERRED | NORMAL | DEPRECATED
  deriving DecidableEq, Repr

/-- `toStatementRank` from `hydrateGamesFromClaims.ts`. -/
def toStatementRank (rank : Option Json) : Option StatementRank :=
  match rank with
  | some (.str "preferred") => some .PREFERRED
  | some (.str "normal") => some .NORMAL
  | some (.str "deprecated") => some .DEPRECATED
  | _ => none

/-- `normalizeString` on an arbitrary JSON value. -/
def normalizeString (value : Option Json) : Option String :=
  match value with
  | some (.str s) => normalizeTrimmed s
  | _ => none

/-- `getClaimId`: `statement.id` trimmed, when the statement is an object. -/
def getClaimId (statement : Json) : Option String :=
  if statement.isObject then normalizeString (statement.get "id") else none

/-- Does `mainsnak.snaktype === "value"` hold? -/
def isValueSnaktype (mainsnak : Json) : Bool :=
  match mainsnak.get "snaktype" with
  | some (.str s) => s = "value"
  | _ => false

/-- `getMainSnakDataValue` from `hydrateGamesFromClaims.ts`.  The source
returns `datavalue.value ?? null`; a missing or JSON-null value is `none`
here, which every caller treats identically (they next test the shape). -/
def getMainSnakDataValue (statement : Json) : Option Json :=
  if ¬statement.isObject then none
  else
    match statement.get "mainsnak" with
    | some mainsnak =>
      if ¬mainsnak.isObject then none
      else if ¬isValueSnaktype mainsnak then none
      else
        match mainsnak.get "datavalue" with
        | some datavalue =>
          if ¬datavalue.isObject then none
          else
            match datavalue.get "value" with
            | some .null => none
            | some v => some v
            | none => none
        | none => none
    | none => none

/-! ### Ranked values and best-value selection -/

/-- `RankedValue<T>` from `hydrateGamesFromClaims.ts`. -/
structure RankedValue (T : Type) where
  value : T
  rankScore : Nat
  deriving DecidableEq

/-- The order induced by the comparator `compareRanked` (which sorts by
descending `rankScore`): `l` may come no later than `r` iff
`compareRanked(l, r) <= 0`, i.e. `r.rankScore <= l.rankScore`. -/
def rankedDescending {T : Type} (l r : RankedValue T) : Prop :=
  r.rankScore ≤ l.rankScore

instance {T : Type} : DecidableRel (@rankedDescending T) :=
  fun l r => inferInstanceAs (Decidable (r.rankScore ≤ l.rankScore))

/-- `pickBestValue`: sort a copy with the `compareRanked` comparator and take
the first element.  `Array.prototype.sort` is stable (ES2019), and
`List.insertionSort` is the stable sort for the induced relation, so the two
agree on every input. -/
def pickBestValue {T : Type} (values : List (RankedValue T)) : Option (RankedValue T) :=
  (List.insertionSort rankedDescending values).head?

/-- `extractItemIds`: item-reference values, deduplicated by QID with a
`seen` set (first occurrence kept), each carrying its statement's rank score.
For a non-object statement `statement.get "rank"` is `none` and
`getRankScore none = 0`, matching the source's `isObject` guard. -/
def extractItemIds (statements : List Json) : List (RankedValue String) :=
  (statements.foldl
    (fun (acc : List String × List (RankedValue String)) statement =>
      match getMainSnakDataValue statement with
      | some value =>
        if ¬value.isObject then acc
        else
          match normalizeString (value.get "id") with
          | some id =>
            if ¬jsStartsWith id "Q" then acc
            else if acc.1.contains id then acc
            else (id :: acc.1,
              acc.2 ++ [⟨id, getRankScore (statement.get "rank")⟩])
          | none => acc
      | none => acc)
    ([], [])).2

/-- `extractStringValues`: string values, trimmed, deduplicated by lowercase
key (first occurrence kept), each carrying its statement's rank score. -/
def extractStringValues (statements : List Json) : List (RankedValue String) :=
  (statements.foldl
    (fun (acc : List String × List (RankedValue String)) statement =>
      match normalizeString (getMainSnakDataValue statement) with
      | some value =>
        let dedupeKey := jsToLower value
        if acc.1.contains dedupeKey then acc
        else (dedupeKey :: acc.1,
          acc.2 ++ [⟨value, getRankScore (statement.get "rank")⟩])
      | none => acc)
    ([], [])).2

/-! ### Wikidata timestamp parsing -/

/-- Result shape of `parseWikidataDateParts`. -/
structure DateParts where
  year : Option Int
  month : Option Int
  day : Option Int
  deriving DecidableEq, Repr

/-- The anchored regex `^([+-]?\d{1,6})-(\d{2})-(\d{2})T` as a function.
Greedy matching with backtracking is equivalent to: take the whole leading
digit run (after an optional sign); the match succeeds iff that run has
length 1..6 and is followed by `-dd-ddT`.  (With more than six leading
digits every backtracking split still faces a digit where `-` is required,
so the regex fails, exactly as modelled.) -/
def matchWikidataDate (s : String) : Option (String × String × String) :=
  let cs := s.data
  let signRest : List Char × List Char :=
    match cs with
    | c :: rest => if c = '+' ∨ c = '-' then ([c], rest) else ([], cs)
    | [] => ([], [])
  let digits := signRest.2.takeWhile Char.isDigit
  let afterDigits := signRest.2.drop digits.length
  if digits.length < 1 ∨ 6 < digits.length then none
  else
    match afterDigits with
    | '-' :: m1 :: m2 :: '-' :: d1 :: d2 :: 'T' :: _ =>
      if m1.isDigit ∧ m2.isDigit ∧ d1.isDigit ∧ d2.isDigit then
        some (String.mk (signRest.1 ++ digits), String.mk [m1, m2], String.mk [d1, d2])
      else none
    | _ => none

/-- `parseWikidataDateParts` from `hydrateGamesFromClaims.ts`. -/
def parseWikidataDateParts (timeValue : String) : DateParts :=
  match matchWikidataDate timeValue with
  | none =>
    match jsParseInt (timeValue.take 6) with
    | some yearOnly =>
      if yearOnly > 0 then ⟨some yearOnly, none, none⟩ else ⟨none, none, none⟩
    | none => ⟨none, none, none⟩
  | some (yStr, mStr, dStr) =>
    match jsParseInt yStr with
    | none => ⟨none, none, none⟩
    | some yearRaw =>
      if yearRaw ≤ 0 then ⟨none, none, none⟩
      else
        let monthRaw := (jsParseInt mStr).getD 0
        let dayRaw := (jsParseInt dStr).getD 0
        ⟨some yearRaw,
          if 1 ≤ monthRaw ∧ monthRaw ≤ 12 then some monthRaw else none,
          if 1 ≤ dayRaw ∧ dayRaw ≤ 31 then some dayRaw else none⟩

/-- `extractQualifierItemId`: first item-reference qualifier value under any
of the given qualifier property ids, in property-id order. -/
def extractQualifierItemId (statement : Json) (qualifierPropertyIds : List String) :
    Option String :=
  if ¬statement.isObject then none
  else
    match statement.get "qualifiers" with
    | some qualifiersRaw =>
      if ¬qualifiersRaw.isObject then none
      else
        qualifierPropertyIds.foldl
          (fun acc propertyId =>
            acc <|>
              match qualifiersRaw.get propertyId with
              | some (.arr qualifierValues) =>
                qualifierValues.foldl
                  (fun acc2 qualifier =>
                    acc2 <|>
                      match getMainSnakDataValue qualifier with
                      | some value =>
                        if ¬value.isObject then none
                        else
                          match normalizeString (value.get "id") with
                          | some id => if jsStartsWith id "Q" then some id else none
                          | none => none
                      | none => none)
                  none
              | _ => none)
          none
    | none => none

/-- `TimeValue` from `hydrateGamesFromClaims.ts`. -/
structure TimeValue where
  claimId : Option String
  rankScore : Nat
  rank : Option StatementRank
  time : String
  precision : Option Int
  year : Int
  month : Option Int
  day : Option Int
  platformQid : Option String
  regionQid : Option String
  claimJson : Option Json

/-- `extractTimeValues` from `hydrateGamesFromClaims.ts`. -/
def extractTimeValues (statements : List Json) : List TimeValue :=
  statements.foldl
    (fun out statement =>
      match getMainSnakDataValue statement with
      | some dataValue =>
        if ¬dataValue.isObject then out
        else
          match normalizeString (dataValue.get "time") with
          | some time =>
            let precision : Option Int :=
              match dataValue.get "precision" with
              | some (.num p) => some p
              | _ => none
            let parts := parseWikidataDateParts time
            match parts.year with
            | none => out
            | some year =>
              out ++ [{
                claimId := getClaimId statement
                rankScore := getRankScore (statement.get "rank")
                rank := toStatementRank (statement.get "rank")
                time := time
                precision := precision
                year := year
                month := parts.month
                day := parts.day
                platformQid := extractQualifierItemId statement ["P400"]
                regionQid := extractQualifierItemId statement ["P291", "P3005"]
                claimJson := if statement.isObject then some statement else none }]
          | none => out
      | none => out)
    []

/-! ### Release-date classification -/

/-- `ReleaseDateCategory` enum. -/
inductive ReleaseDateCategory where
  | YYYY | YYYYMMMM | YYYYMMMMDD
  deriving DecidableEq, Repr

/-- `toReleaseDateCategory` from `hydrateGamesFromClaims.ts`. -/
def toReleaseDateCategory (precision : Option Int) (month : Option Int)
    (day : Option Int) : ReleaseDateCategory :=
  if precision = some 10 ∧ month.isSome then .YYYYMMMM
  else if precision = some 9 then .YYYY
  else if (match precision with | some p => decide (p < 9) | none => false) = true then .YYYY
  else if month.isSome ∧ day.isSome then .YYYYMMMMDD
  else if month.isSome then .YYYYMMMM
  else .YYYY

/-- `buildReleaseDateHuman` from `hydrateGamesFromClaims.ts`. -/
def buildReleaseDateHuman (year : Int) (month : Option Int) (day : Option Int)
    (category : ReleaseDateCategory) : String :=
  if category = .YYYYMMMMDD ∧ month.isSome ∧ day.isSome then
    toString year ++ "-" ++ pad2 (month.getD 0) ++ "-" ++ pad2 (day.getD 0)
  else if category = .YYYYMMMM ∧ month.isSome then
    toString year ++ "-" ++ pad2 (month.getD 0)
  else
    toString year

/-! ### Scalar update gate -/

/-- The union `string | number | Date` of scalar values compared by
`shouldApplyScalarUpdate` (`Date`s by their epoch milliseconds, which is how
the source compares them via `getTime`). -/
inductive ScalarValue where
  | num (n : Int)
  | str (s : String)
  | date (ms : Int)
  deriving DecidableEq, Repr

/-- `shouldApplyScalarUpdate` from `hydrateGamesFromClaims.ts`. -/
def shouldApplyScalarUpdate (existingValue : Option ScalarValue)
    (nextValue : ScalarValue) (rankScore : Nat) : Bool :=
  match existingValue with
  | none => true
  | some e => decide (2 ≤ rankScore) && decide (e ≠ nextValue)

/-! ### Row deduplication (`dedupeRows`) -/

/-- JavaScript `Map.prototype.set` on an association list: replace the value
at an existing key in place, otherwise append. -/
def mapSet {V : Type} (m : List (String × V)) (k : String) (v : V) :
    List (String × V) :=
  if m.any (fun p => p.1 = k) then m.map (fun p => if p.1 = k then (k, v) else p)
  else m ++ [(k, v)]

/-- `dedupeRows`: `[...new Map(rows.map(row => [keyFor(row), row])).values()]`
— for each distinct key the last row wins, at the key's first position. -/
def dedupeRows {Row : Type} (rows : List Row) (keyFor : Row → String) : List Row :=
  (rows.foldl (fun m row => mapSet m (keyFor row) row) []).map (·.2)

/-! ### Property registry (`scripts/wikidata/propertyRegistry.ts`)

The Prisma string enums (`TagKind`, `CompanyRole`, …) are modelled by their
string values. -/

structure PropertyRegistryEntry where
  propertyId : String
  label : String
  status : String
  target : String
  cardinality : String
  valueType : String
  source : String
  tagKind : Option String := none
  companyRole : Option String := none
  relationKind : Option String := none
  websiteCategory : Option String := none
  externalCategory : Option String := none
  videoProvider : Option String := none
  imageKind : Option String := none
  ageRatingOrganization : Option String := none
  deriving Repr, DecidableEq

def PROPERTY_REGISTRY : List PropertyRegistryEntry := [
  { propertyId := "P31", label := "instance of", status := "core",
    target := "game.instanceOf", cardinality := "multi", valueType := "item",
    source := "wikidata:P31" },
  { propertyId := "P400", label := "platform", status := "core",
    target := "gamePlatform", cardinality := "multi", valueType := "item",
    source := "wikidata:P400" },
  { propertyId := "P136", label := "genre", status := "core",
    target := "gameTag", cardinality := "multi", valueType := "item",
    source := "wikidata:P136", tagKind := some "GENRE" },
  { propertyId := "P179", label := "part of the series", status := "common",
    target := "gameTag", cardinality := "multi", valueType := "item",
    source := "wikidata:P179", tagKind := some "SERIES" },
  { propertyId := "P155", label := "follows", status := "common",
    target := "gameRelation", cardinality := "multi", valueType := "item",
    source := "wikidata:P155", relationKind := some "FOLLOWS" },
  { propertyId := "P156", label := "followed by", status := "common",
    target := "gameRelation", cardinality := "multi", valueType := "item",
    source := "wikidata:P156", relationKind := some "FOLLOWED_BY" },
  { propertyId := "P408", label := "software engine", status := "common",
    target := "gameTag", cardinality := "multi", valueType := "item",
    source := "wikidata:P408", tagKind := some "ENGINE" },
  { propertyId := "P404", label := "game mode", status := "common",
    target := "gameTag", cardinality := "multi", valueType := "item",
    source := "wikidata:P404", tagKind := some "MODE" },
  { propertyId := "P921", label := "main subject", status := "niche",
    target := "gameTag", cardinality := "multi", valueType := "item",
    source := "wikidata:P921", tagKind := some "THEME" },
  { propertyId := "P2572", label := "hashtag", status := "niche",
    target := "gameTag", cardinality := "multi", valueType := "item",
    source := "wikidata:P2572", tagKind := some "KEYWORD" },
  { propertyId := "P8345", label := "media franchise", status := "common",
    target := "gameTag", cardinality := "multi", valueType := "item",
    source := "wikidata:P8345", tagKind := some "FRANCHISE" },
  { propertyId := "P577", label := "publication date", status := "core",
    target := "game.releaseDate", cardinality := "multi", valueType := "time",
    source := "wikidata:P577" },
  { propertyId := "P178", label := "developer", status := "core",
    target := "gameCompany", cardinality := "multi", valueType := "item",
    source := "wikidata:P178", companyRole := some "DEVELOPER" },
  { propertyId := "P123", label := "publisher", status := "core",
    target := "gameCompany", cardinality := "multi", valueType := "item",
    source := "wikidata:P123", companyRole := some "PUBLISHER" },
  { propertyId := "P856", label := "official website", status := "core",
    target := "website", cardinality := "multi", valueType := "string",
    source := "wikidata:P856", websiteCategory := some "OFFICIAL" },
  { propertyId := "P18", label := "image", status := "core",
    target := "game.image", cardinality := "multi", valueType := "string",
    source := "wikidata:P18", imageKind := some "COVER" },
  { propertyId := "P852", label := "ESRB rating", status := "common",
    target := "gameAgeRating", cardinality := "multi", valueType := "item",
    source := "wikidata:P852", ageRatingOrganization := some "ESRB" },
  { propertyId := "P908", label := "PEGI rating", status := "common",
    target := "gameAgeRating", cardinality := "multi", valueType := "item",
    source := "wikidata:P908", ageRatingOrganization := some "PEGI" },
  { propertyId := "P1733", label := "Steam App ID", status := "common",
    target := "externalGame", cardinality := "multi", valueType := "external-id",
    source := "wikidata:P1733", externalCategory := some "STEAM" },
  { propertyId := "P2725", label := "GOG ID", status := "common",
    target := "externalGame", cardinality := "multi", valueType := "external-id",
    source := "wikidata:P2725", externalCategory := some "GOG" },
  { propertyId := "P1651", label := "YouTube video ID", status := "niche",
    target := "gameVideo", cardinality := "multi", valueType := "string",
    source := "wikidata:P1651", videoProvider := some "YOUTUBE" },
  { propertyId := "P279", label := "subclass of", status := "ignore",
    target := "game.instanceOf", cardinality := "multi", valueType := "item",
    source := "wikidata:P279" }]

/-- `getHydratableRegistryEntries` from `propertyRegistry.ts`. -/
def getHydratableRegistryEntries (includeNiche : Bool) : List PropertyRegistryEntry :=
  PROPERTY_REGISTRY.filter (fun entry =>
    if entry.status = "ignore" then false
    else if ¬includeNiche ∧ entry.status = "niche" then false
    else true)

/-! ### Row types produced by `parseBatch` -/

structure CandidateGame where
  qid : String
  title : String
  claimsJson : Json
  releaseYear : Option Int
  firstReleaseAt : Option Int
  imageCommons : Option String
  imageUrl : Option String

structure GamePlatformRow where
  gameQid : String
  platformQid : String
  source : String
  deriving DecidableEq

structure TagCreate where
  id : String
  kind : String
  label : String
  source : String
  description : Option String
  deriving DecidableEq

structure CompanyCreate where
  qid : String
  name : String
  description : Option String
  deriving DecidableEq

structure GameTagRow where
  gameQid : String
  tagId : String
  deriving DecidableEq

structure GameCompanyRow where
  gameQid : String
  companyQid : String
  role : String
  deriving DecidableEq

structure GameRelationRow where
  fromGameQid : String
  toGameQid : String
  kind : String
  source : String
  deriving DecidableEq

structure ReleaseDateRow where
  gameQid : String
  category : ReleaseDateCategory
  date : Int
  year : Int
  month : Option Int
  day : Option Int
  precision : Option Int
  rank : Option StatementRank
  platformQid : Option String
  regionQid : Option String
  calendarModel : String
  human : String
  source : String
  claimId : Option String
  claimJson : Option Json

structure WebsiteRow where
  gameQid : String
  category : String
  url : String
  source : String
  deriving DecidableEq

structure ExternalGameRow where
  gameQid : String
  category : String
  uid : String
  url : Option String
  source : String
  deriving DecidableEq

structure GameImageRow where
  gameQid : String
  kind : String
  url : String
  source : String
  imageId : String
  deriving DecidableEq

structure GameVideoRow where
  gameQid : String
  provider : String
  videoId : String
  source : String
  deriving DecidableEq

structure GameAgeRatingRow where
  gameQid : String
  organization : String
  rating : String
  source : String
  deriving DecidableEq

/-- `Prisma.GameUpdateInput` as built in `parseBatch` (only these four keys
are ever set; an unset key leaves the column unchanged). -/
structure GamePatch where
  releaseYear : Option Int := none
  firstReleaseAt : Option Int := none
  imageCommons : Option String := none
  imageUrl : Option String := none
  deriving Repr

/-- `Object.keys(scalarPatch).length > 0` is false iff no field was set. -/
def GamePatch.isEmpty (p : GamePatch) : Bool :=
  p.releaseYear.isNone && p.firstReleaseAt.isNone &&
    p.imageCommons.isNone && p.imageUrl.isNone

structure ScalarUpdate where
  qid : String
  data : GamePatch

structure BatchRows where
  scalarUpdates : List ScalarUpdate
  tagsToCreate : List (String × TagCreate)
  companiesToCreate : List (String × CompanyCreate)
  gamePlatformRows : List GamePlatformRow
  gameTagRows : List GameTagRow
  gameCompanyRows : List GameCompanyRow
  gameRelationRows : List GameRelationRow
  releaseDateRows : List ReleaseDateRow
  websiteRows : List WebsiteRow
  externalGameRows : List ExternalGameRow
  imageRows : List GameImageRow
  videoRows : List GameVideoRow
  ageRatingRows : List GameAgeRatingRow

/-! ### `parseBatch` (claim normalization)

The source pushes rows into shared arrays while looping
`for game of games { for entry of byTarget.X { for item ... } }`; each
component below is the same game-major/entry/item sequence written as
`flatMap`, and the shared `Map`s (`tagsToCreate`, `companiesToCreate`) are
the fold of the same `Map.set` calls in the same order. -/

/-- `game.claimsJson` viewed as a claims object (`asClaimsObject`). -/
def claimsOf (g : CandidateGame) : Option Json :=
  asClaimsObject g.claimsJson

/-- Rows pushed by the `byTarget.gamePlatform` loop for one game. -/
def platformRowsFor (qid : String) (claims : Option Json)
    (entries : List PropertyRegistryEntry) : List GamePlatformRow :=
  entries.flatMap fun entry =>
    (extractItemIds (getPropertyStatements claims entry.propertyId)).map fun item =>
      { gameQid := qid, platformQid := item.value, source := entry.source }

/-- `Map.set` calls on `tagsToCreate` made by the `byTarget.gameTag` loop. -/
def tagCatalogPairsFor (claims : Option Json)
    (entries : List PropertyRegistryEntry) : List (String × TagCreate) :=
  entries.flatMap fun entry =>
    match entry.tagKind with
    | none => []
    | some kind =>
      (extractItemIds (getPropertyStatements claims entry.propertyId)).map fun item =>
        (item.value,
          { id := item.value, kind := kind, label := item.value,
            source := entry.source, description := none })

/-- Rows pushed onto `gameTagRows` for one game. -/
def tagRowsFor (qid : String) (claims : Option Json)
    (entries : List PropertyRegistryEntry) : List GameTagRow :=
  entries.flatMap fun entry =>
    match entry.tagKind with
    | none => []
    | some _ =>
      (extractItemIds (getPropertyStatements claims entry.propertyId)).map fun item =>
        { gameQid := qid, tagId := item.value }

/-- `Map.set` calls on `companiesToCreate` made by the `byTarget.gameCompany`
loop. -/
def companyCatalogPairsFor (claims : Option Json)
    (entries : List PropertyRegistryEntry) : List (String × CompanyCreate) :=
  entries.flatMap fun entry =>
    match entry.companyRole with
    | none => []
    | some _ =>
      (extractItemIds (getPropertyStatements claims entry.propertyId)).map fun item =>
        (item.value, { qid := item.value, name := item.value, description := none })

/-- Rows pushed onto `gameCompanyRows` for one game. -/
def companyRowsFor (qid : String) (claims : Option Json)
    (entries : List PropertyRegistryEntry) : List GameCompanyRow :=
  entries.flatMap fun entry =>
    match entry.companyRole with
    | none => []
    | some role =>
      (extractItemIds (getPropertyStatements claims entry.propertyId)).map fun item =>
        { gameQid := qid, companyQid := item.value, role := role }

/-- Rows pushed onto `gameRelationRows` for one game. -/
def relationRowsFor (qid : String) (claims : Option Json)
    (entries : List PropertyRegistryEntry) : List GameRelationRow :=
  entries.flatMap fun entry =>
    match entry.relationKind with
    | none => []
    | some kind =>
      (extractItemIds (getPropertyStatements claims entry.propertyId)).map fun item =>
        { fromGameQid := qid, toGameQid := item.value, kind := kind,
          source := entry.source }

/-- Rows pushed onto `releaseDateRows` for one game. -/
def releaseDateRowsFor (qid : String) (claims : Option Json)
    (entries : List PropertyRegistryEntry) : List ReleaseDateRow :=
  entries.flatMap fun entry =>
    (extractTimeValues (getPropertyStatements claims entry.propertyId)).map fun timeValue =>
      let category := toReleaseDateCategory timeValue.precision timeValue.month timeValue.day
      { gameQid := qid
        category := category
        date := toUtcDate timeValue.year timeValue.month timeValue.day
        year := timeValue.year
        month := timeValue.month
        day := timeValue.day
        precision := timeValue.precision
        rank := timeValue.rank
        platformQid := timeValue.platformQid
        regionQid := timeValue.regionQid
        calendarModel := "wikidata:gregorian"
        human := buildReleaseDateHuman timeValue.year timeValue.month timeValue.day category
        source := entry.source
        claimId := timeValue.claimId
        claimJson := timeValue.claimJson }

/-- Rows pushed onto `websiteRows` for one game. -/
def websiteRowsFor (qid : String) (claims : Option Json)
    (entries : List PropertyRegistryEntry) : List WebsiteRow :=
  entries.flatMap fun entry =>
    let websiteCategory := entry.websiteCategory.getD "OTHER"
    (extractStringValues (getPropertyStatements claims entry.propertyId)).map fun item =>
      { gameQid := qid, category := websiteCategory, url := item.value,
        source := entry.source }

/-- Rows pushed onto `externalGameRows` for one game. -/
def externalRowsFor (qid : String) (claims : Option Json)
    (entries : List PropertyRegistryEntry) : List ExternalGameRow :=
  entries.flatMap fun entry =>
    match entry.externalCategory with
    | none => []
    | some category =>
      (extractStringValues (getPropertyStatements claims entry.propertyId)).map fun item =>
        let url : Option String :=
          if entry.propertyId = "P1733" then
            some ("https://store.steampowered.com/app/" ++ encodeURIComponent item.value)
          else if entry.propertyId = "P2725" then
            some ("https://www.gog.com/game/" ++ encodeURIComponent item.value)
          else none
        { gameQid := qid, category := category, uid := item.value, url := url,
          source := entry.source }

/-- Rows pushed onto `imageRows` for one game (`GameImageKind` as string). -/
def imageRowsFor (qid : String) (claims : Option Json)
    (entries : List PropertyRegistryEntry) : List GameImageRow :=
  entries.flatMap fun entry =>
    let imageValues := extractStringValues (getPropertyStatements claims entry.propertyId)
    let bestImage := pickBestValue imageValues
    imageValues.map fun imageValue =>
      let kind :=
        match bestImage with
        | some best => if imageValue.value = best.value then "COVER" else "OTHER"
        | none => "OTHER"
      { gameQid := qid, kind := kind, url := commonsFileUrl imageValue.value,
        source := entry.source, imageId := imageValue.value }

/-- Rows pushed onto `videoRows` for one game. -/
def videoRowsFor (qid : String) (claims : Option Json)
    (entries : List PropertyRegistryEntry) : List GameVideoRow :=
  entries.flatMap fun entry =>
    match entry.videoProvider with
    | none => []
    | some provider =>
      (extractStringValues (getPropertyStatements claims entry.propertyId)).map fun item =>
        { gameQid := qid, provider := provider, videoId := item.value,
          source := entry.source }

/-- Rows pushed onto `ageRatingRows` for one game (string-valued ratings
first, then item-valued ratings, as in the source). -/
def ageRatingRowsFor (qid : String) (claims : Option Json)
    (entries : List PropertyRegistryEntry) : List GameAgeRatingRow :=
  entries.flatMap fun entry =>
    match entry.ageRatingOrganization with
    | none => []
    | some organization =>
      let strings := extractStringValues (getPropertyStatements claims entry.propertyId)
      let items := extractItemIds (getPropertyStatements claims entry.propertyId)
      (strings.map fun item =>
        ({ gameQid := qid, organization := organization, rating := item.value,
           source := entry.source } : GameAgeRatingRow)) ++
      (items.map fun item =>
        { gameQid := qid, organization := organization, rating := item.value,
          source := entry.source })

/-- The `byTarget.gameReleaseDate` loop body that touches `scalarPatch`. -/
def applyReleaseDatePatch (game : CandidateGame) (claims : Option Json)
    (patch : GamePatch) (entry : PropertyRegistryEntry) : GamePatch :=
  let times := extractTimeValues (getPropertyStatements claims entry.propertyId)
  match pickBestValue (times.map fun value => ⟨value, value.rankScore⟩) with
  | none => patch
  | some bestRelease =>
    let nextYear := bestRelease.value.year
    let nextFirstReleaseAt :=
      toUtcDate bestRelease.value.year bestRelease.value.month bestRelease.value.day
    let patch1 :=
      if shouldApplyScalarUpdate (game.releaseYear.map .num) (.num nextYear)
          bestRelease.rankScore then
        { patch with releaseYear := some nextYear }
      else patch
    if shouldApplyScalarUpdate (game.firstReleaseAt.map .date) (.date nextFirstReleaseAt)
        bestRelease.rankScore then
      { patch1 with firstReleaseAt := some nextFirstReleaseAt }
    else patch1

/-- The `byTarget.gameImage` loop body that touches `scalarPatch`. -/
def applyImagePatch (game : CandidateGame) (claims : Option Json)
    (patch : GamePatch) (entry : PropertyRegistryEntry) : GamePatch :=
  let imageValues := extractStringValues (getPropertyStatements claims entry.propertyId)
  match pickBestValue imageValues with
  | none => patch
  | some bestImage =>
    if shouldApplyScalarUpdate (game.imageCommons.map .str) (.str bestImage.value)
        bestImage.rankScore then
      { patch with imageCommons := some bestImage.value,
                   imageUrl := some (commonsFileUrl bestImage.value) }
    else patch

/-- The whole `scalarPatch` accumulated for one game (the release-date loop
runs before the image loop in the source). -/
def scalarPatchFor (game : CandidateGame) (claims : Option Json)
    (releaseDateEntries imageEntries : List PropertyRegistryEntry) : GamePatch :=
  let afterRelease := releaseDateEntries.foldl (applyReleaseDatePatch game claims) {}
  imageEntries.foldl (applyImagePatch game claims) afterRelease

/-- A per-game component of `parseBatch`, skipping games whose `claimsJson`
is not an object (the `continue`). -/
def perGameRows {Row : Type} (games : List CandidateGame)
    (f : String → Option Json → List Row) : List Row :=
  games.flatMap fun game =>
    match claimsOf game with
    | none => []
    | some claims => f game.qid (some claims)

/-- `parseBatch` from `hydrateGamesFromClaims.ts`. -/
def parseBatch (games : List CandidateGame)
    (entries : List PropertyRegistryEntry) : BatchRows :=
  let platformEntries := entries.filter (·.target = "gamePlatform")
  let tagEntries := entries.filter (·.target = "gameTag")
  let companyEntries := entries.filter (·.target = "gameCompany")
  let relationEntries := entries.filter (·.target = "gameRelation")
  let releaseDateEntries := entries.filter (·.target = "game.releaseDate")
  let imageEntries := entries.filter (·.target = "game.image")
  let websiteEntries := entries.filter (·.target = "website")
  let externalEntries := entries.filter (·.target = "externalGame")
  let videoEntries := entries.filter (·.target = "gameVideo")
  let ageRatingEntries := entries.filter (·.target = "gameAgeRating")
  { scalarUpdates :=
      games.filterMap fun game =>
        match claimsOf game with
        | none => none
        | some claims =>
          let patch := scalarPatchFor game (some claims) releaseDateEntries imageEntries
          if patch.isEmpty then none else some { qid := game.qid, data := patch }
    tagsToCreate :=
      (perGameRows games (fun _ claims => tagCatalogPairsFor claims tagEntries)).foldl
        (fun m p => mapSet m p.1 p.2) []
    companiesToCreate :=
      (perGameRows games (fun _ claims => companyCatalogPairsFor claims companyEntries)).foldl
        (fun m p => mapSet m p.1 p.2) []
    gamePlatformRows :=
      dedupeRows (perGameRows games (platformRowsFor · · platformEntries))
        (fun row => row.gameQid ++ ":" ++ row.platformQid)
    gameTagRows :=
      dedupeRows (perGameRows games (tagRowsFor · · tagEntries))
        (fun row => row.gameQid ++ ":" ++ row.tagId)
    gameCompanyRows :=
      dedupeRows (perGameRows games (companyRowsFor · · companyEntries))
        (fun row => row.gameQid ++ ":" ++ row.companyQid ++ ":" ++ row.role)
    gameRelationRows :=
      dedupeRows (perGameRows games (relationRowsFor · · relationEntries))
        (fun row => row.fromGameQid ++ ":" ++ row.toGameQid ++ ":" ++ row.kind)
    releaseDateRows :=
      dedupeRows (perGameRows games (releaseDateRowsFor · · releaseDateEntries))
        (fun row => row.gameQid ++ ":" ++ (row.claimId.getD row.human))
    websiteRows :=
      dedupeRows (perGameRows games (websiteRowsFor · · websiteEntries))
        (fun row => row.gameQid ++ ":" ++ row.url)
    externalGameRows :=
      dedupeRows (perGameRows games (externalRowsFor · · externalEntries))
        (fun row => row.gameQid ++ ":" ++ row.category ++ ":" ++ row.uid)
    imageRows :=
      dedupeRows (perGameRows games (imageRowsFor · · imageEntries))
        (fun row => row.gameQid ++ ":" ++ row.kind ++ ":" ++ row.url)
    videoRows :=
      dedupeRows (perGameRows games (videoRowsFor · · videoEntries))
        (fun row => row.gameQid ++ ":" ++ row.provider ++ ":" ++ row.videoId)
    ageRatingRows :=
      dedupeRows (perGameRows games (ageRatingRowsFor · · ageRatingEntries))
        (fun row => row.gameQid ++ ":" ++ row.organization ++ ":" ++ row.rating) }

/-! ### Relational store and `applyBatch` (batch writer)

Tables are lists of rows.  `createMany(..., skipDuplicates: true)` is
`ON CONFLICT DO NOTHING`: a row is inserted unless it conflicts with a row
already in the table (including rows inserted earlier in the same call) on a
unique constraint.  The conflict predicates below are the unique keys from
`prisma/migrations` (`ReleaseDate`'s key `(gameQid, claimId)` never fires
for a SQL-`NULL` `claimId`, which the predicate reflects). -/

structure GameRecord where
  qid : String
  title : String
  claimsJson : Json
  releaseYear : Option Int
  firstReleaseAt : Option Int
  imageCommons : Option String
  imageUrl : Option String
  lastEnrichedAt : Option Int

structure PlatformRecord where
  qid : String
  deriving DecidableEq

structure Store where
  platforms : List PlatformRecord
  games : List GameRecord
  tags : List TagCreate
  companies : List CompanyCreate
  gamePlatform : List GamePlatformRow
  gameTag : List GameTagRow
  gameCompany : List GameCompanyRow
  gameRelation : List GameRelationRow
  releaseDate : List ReleaseDateRow
  website : List WebsiteRow
  externalGame : List ExternalGameRow
  gameImage : List GameImageRow
  gameVideo : List GameVideoRow
  gameAgeRating : List GameAgeRatingRow

/-- `createMany` with `skipDuplicates: true`. -/
def createManySkip {Row : Type} (conflict : Row → Row → Bool)
    (table : List Row) (data : List Row) : List Row :=
  data.foldl
    (fun t r => if t.any (fun x => conflict x r) then t else t ++ [r]) table

def tagConflict (x r : TagCreate) : Bool := x.id = r.id
def companyConflict (x r : CompanyCreate) : Bool := x.qid = r.qid
def gamePlatformConflict (x r : GamePlatformRow) : Bool :=
  x.gameQid = r.gameQid && x.platformQid = r.platformQid
def gameTagConflict (x r : GameTagRow) : Bool :=
  x.gameQid = r.gameQid && x.tagId = r.tagId
def gameCompanyConflict (x r : GameCompanyRow) : Bool :=
  x.gameQid = r.gameQid && x.companyQid = r.companyQid && x.role = r.role
def gameRelationConflict (x r : GameRelationRow) : Bool :=
  x.fromGameQid = r.fromGameQid && x.toGameQid = r.toGameQid && x.kind = r.kind
def releaseDateConflict (x r : ReleaseDateRow) : Bool :=
  x.gameQid = r.gameQid && x.claimId = r.claimId && x.claimId.isSome
def websiteConflict (x r : WebsiteRow) : Bool :=
  x.gameQid = r.gameQid && x.url = r.url
def externalGameConflict (x r : ExternalGameRow) : Bool :=
  x.gameQid = r.gameQid && x.category = r.category && x.uid = r.uid
def gameImageConflict (x r : GameImageRow) : Bool :=
  x.gameQid = r.gameQid && x.kind = r.kind && x.url = r.url
def gameVideoConflict (x r : GameVideoRow) : Bool :=
  x.gameQid = r.gameQid && x.provider = r.provider && x.videoId = r.videoId
def gameAgeRatingConflict (x r : GameAgeRatingRow) : Bool :=
  x.gameQid = r.gameQid && x.organization = r.organization && x.rating = r.rating

/-- `tx.game.update({ where: { qid }, data: { ...update.data,
lastEnrichedAt: new Date() } })` applied to one row. -/
def applyGamePatch (g : GameRecord) (patch : GamePatch) (now : Int) : GameRecord :=
  { g with
    releaseYear :=
      match patch.releaseYear with
      | some y => some y
      | none => g.releaseYear
    firstReleaseAt :=
      match patch.firstReleaseAt with
      | some d => some d
      | none => g.firstReleaseAt
    imageCommons :=
      match patch.imageCommons with
      | some s => some s
      | none => g.imageCommons
    imageUrl :=
      match patch.imageUrl with
      | some s => some s
      | none => g.imageUrl
    lastEnrichedAt := some now }

/-- The `for (const update of parsed.scalarUpdates) { tx.game.update(...) }`
loop. -/
def applyScalarUpdates (now : Int) (us : List ScalarUpdate)
    (gs : List GameRecord) : List GameRecord :=
  us.foldl
    (fun gs u =>
      gs.map fun g => if g.qid = u.qid then applyGamePatch g u.data now else g)
    gs

structure ApplyResult where
  store : Store
  skippedGameRelationRows : Nat

/-- `applyBatch` from `hydrateGamesFromClaims.ts`. -/
def applyBatch (now : Int) (S : Store) (games : List CandidateGame)
    (parsed : BatchRows) : ApplyResult :=
  let qids := games.map (·.qid)
  let existingPlatform (q : String) : Bool := S.platforms.any (·.qid = q)
  let existingRelationTarget (q : String) : Bool := S.games.any (·.qid = q)
  let filteredGamePlatformRows :=
    parsed.gamePlatformRows.filter (fun row => existingPlatform row.platformQid)
  let filteredGameRelationRows :=
    parsed.gameRelationRows.filter (fun row => existingRelationTarget row.toGameQid)
  let skippedGameRelationRows :=
    parsed.gameRelationRows.length - filteredGameRelationRows.length
  let store' : Store :=
    { platforms := S.platforms
      games := applyScalarUpdates now parsed.scalarUpdates S.games
      tags := createManySkip tagConflict S.tags (parsed.tagsToCreate.map (·.2))
      companies :=
        createManySkip companyConflict S.companies (parsed.companiesToCreate.map (·.2))
      gamePlatform :=
        createManySkip gamePlatformConflict
          (S.gamePlatform.filter (fun r => ¬qids.contains r.gameQid))
          filteredGamePlatformRows
      gameTag :=
        createManySkip gameTagConflict
          (S.gameTag.filter (fun r => ¬qids.contains r.gameQid))
          parsed.gameTagRows
      gameCompany :=
        createManySkip gameCompanyConflict
          (S.gameCompany.filter (fun r => ¬qids.contains r.gameQid))
          parsed.gameCompanyRows
      gameRelation :=
        createManySkip gameRelationConflict
          (S.gameRelation.filter (fun r => ¬qids.contains r.fromGameQid))
          filteredGameRelationRows
      releaseDate :=
        createManySkip releaseDateConflict
          (S.releaseDate.filter (fun r => ¬qids.contains r.gameQid))
          parsed.releaseDateRows
      website :=
        createManySkip websiteConflict
          (S.website.filter (fun r => ¬qids.contains r.gameQid))
          parsed.websiteRows
      externalGame :=
        createManySkip externalGameConflict
          (S.externalGame.filter (fun r => ¬qids.contains r.gameQid))
          parsed.externalGameRows
      gameImage :=
        createManySkip gameImageConflict
          (S.gameImage.filter (fun r => ¬qids.contains r.gameQid))
          parsed.imageRows
      gameVideo :=
        createManySkip gameVideoConflict
          (S.gameVideo.filter (fun r => ¬qids.contains r.gameQid))
          parsed.videoRows
      gameAgeRating :=
        createManySkip gameAgeRatingConflict
          (S.gameAgeRating.filter (fun r => ¬qids.contains r.gameQid))
          parsed.ageRatingRows }
  { store := store', skippedGameRelationRows := skippedGameRelationRows }

/-- The per-batch read in `main`: games with `claimsJson` not SQL-JSON-null,
restricted to the batch qids, projected to the selected columns. -/
def toCandidate (g : GameRecord) : CandidateGame :=
  { qid := g.qid, title := g.title, claimsJson := g.claimsJson,
    releaseYear := g.releaseYear, firstReleaseAt := g.firstReleaseAt,
    imageCommons := g.imageCommons, imageUrl := g.imageUrl }

def readGames (S : Store) (batchQids : List String) : List CandidateGame :=
  (S.games.filter (fun g => batchQids.contains g.qid && ¬g.claimsJson.isNull)).map
    toCandidate

/-- One pass of the hydration pipeline over a batch: read, normalize
(`parseBatch`), write (`applyBatch`). -/
def runOnce (now : Int) (batchQids : List String)
    (entries : List PropertyRegistryEntry) (S : Store) : Store :=
  let games := readGames S batchQids
  (applyBatch now S games (parseBatch games entries)).store

/-! ### Revision-aware cache (`scripts/wiki/wikiClient.ts`)

`getOrFetchWikiPage` / `getOrFetchWikidataEntity` are modelled as functions
of an environment giving the upstream responses and the current cache rows.
Each successful `fetchJson` call is one event; `cacheUpsert` is the only
write the functions perform.  Retries live inside `fetchJson` and are below
the granularity of the model. -/

/-- JavaScript truthiness of a possibly-missing number (`!x`). -/
def jsTruthyInt : Option Int → Bool
  | none => false
  | some n => n ≠ 0

/-- JavaScript `a?.trim() || b`. -/
def jsTrimOrElse (a : Option String) (b : String) : String :=
  match a with
  | some s => if (jsTrim s).isEmpty then b else jsTrim s
  | none => b

inductive WikiFetchEvent where
  | metaRequest      -- lightweight metadata / info probe
  | contentRequest   -- heavyweight payload fetch
  | cacheUpsert      -- write to the cache row
  deriving DecidableEq, Repr

structure RevisionMeta where
  revid : Option Int

structure PageMeta where
  missing : Bool
  title : Option String
  revisions : List RevisionMeta

/-- One revision of the content response; `mainContent` is
`revision.slots.main.content` flattened. -/
structure ContentRevision where
  revid : Option Int
  mainContent : Option String

structure ContentPage where
  missing : Bool
  title : Option String
  revisions : List ContentRevision

structure WikiPageCacheRow where
  revid : Option Int
  payloadJson : Json
  payloadText : Option String

/-- Environment of one `getOrFetchWikiPage` call: the two responses the API
would return and the cache table keyed by `(site, title)`. -/
structure WikiPageEnv where
  metaPages : List PageMeta
  contentPages : List ContentPage
  contentPayload : Json
  cache : String → String → Option WikiPageCacheRow

structure CachedWikiPageResult where
  site : String
  title : String
  revid : Option Int
  payloadJson : Json
  payloadText : Option String
  source : String

/-- `getOrFetchWikiPage` from `wikiClient.ts`. -/
def getOrFetchWikiPage (env : WikiPageEnv) (site title : String) :
    Except String CachedWikiPageResult × List WikiFetchEvent :=
  let page := env.metaPages.head?
  let latestRevid := (page.bind (·.revisions.head?)).bind (·.revid)
  let normalizedTitle := jsTrimOrElse (page.bind (·.title)) title
  if (page.map (·.missing)).getD false || !jsTruthyInt latestRevid then
    (.error ("Wiki page not found or has no revisions: " ++ site ++ ":" ++ title),
      [.metaRequest])
  else
    let latest := latestRevid.getD 0
    let cached := env.cache site normalizedTitle
    if (cached.bind (·.revid)) = some latest then
      match cached with
      | some c =>
        (.ok { site := site, title := normalizedTitle, revid := c.revid,
               payloadJson := c.payloadJson, payloadText := c.payloadText,
               source := "cache-hit" },
          [.metaRequest])
      | none => (.error "unreachable", [.metaRequest])
    else
      let contentPage := env.contentPages.head?
      let revision := contentPage.bind (·.revisions.head?)
      let contentRevid := revision.bind (·.revid)
      if !jsTruthyInt contentRevid then
        (.error ("Wiki page content fetch returned no revision id: " ++ site ++
            ":" ++ normalizedTitle),
          [.metaRequest, .contentRequest])
      else
        let wikitext := revision.bind (·.mainContent)
        (.ok { site := site, title := normalizedTitle,
               revid := some (contentRevid.getD 0),
               payloadJson := env.contentPayload, payloadText := wikitext,
               source := "fetched" },
          [.metaRequest, .contentRequest, .cacheUpsert])

/-- `entities[qid]` of the `props: "info"` response. -/
structure EntityInfo where
  missingFlag : Option String
  lastrevid : Option Int

structure WikidataEntityCacheRow where
  lastrevid : Option Int
  entityJson : Json

structure WikidataEntityEnv where
  infoEntities : String → Option EntityInfo
  fullEntities : String → Option Json
  cache : String → Option WikidataEntityCacheRow

structure CachedWikidataEntityResult where
  qid : String
  lastrevid : Option Int
  entityJson : Json
  source : String

/-- The regex `^Q\d+$`. -/
def isQidFormat (s : String) : Bool :=
  match s.data with
  | 'Q' :: rest => !rest.isEmpty && rest.all Char.isDigit
  | _ => false

/-- `getOrFetchWikidataEntity` from `wikiClient.ts`. -/
def getOrFetchWikidataEntity (env : WikidataEntityEnv) (qid : String) :
    Except String CachedWikidataEntityResult × List WikiFetchEvent :=
  let normalizedQid := jsToUpper qid
  if ¬isQidFormat normalizedQid then
    (.error ("Invalid QID: " ++ qid), [])
  else
    match env.infoEntities normalizedQid with
    | none => (.error ("Wikidata entity not found: " ++ normalizedQid), [.metaRequest])
    | some info =>
      if info.missingFlag = some "" then
        (.error ("Wikidata entity not found: " ++ normalizedQid), [.metaRequest])
      else if !jsTruthyInt info.lastrevid then
        (.error ("Wikidata entity has no lastrevid: " ++ normalizedQid), [.metaRequest])
      else
        let lastrevid := info.lastrevid.getD 0
        let cached := env.cache normalizedQid
        if (cached.bind (·.lastrevid)) = some lastrevid then
          match cached with
          | some c =>
            (.ok { qid := normalizedQid, lastrevid := c.lastrevid,
                   entityJson := c.entityJson, source := "cache-hit" },
              [.metaRequest])
          | none => (.error "unreachable", [.metaRequest])
        else
          match env.fullEntities normalizedQid with
          | none =>
            (.error ("Wikidata entity payload missing entity " ++ normalizedQid),
              [.metaRequest, .contentRequest])
          | some entityJson =>
            (.ok { qid := normalizedQid, lastrevid := some lastrevid,
                   entityJson := entityJson, source := "fetched" },
              [.metaRequest, .contentRequest, .cacheUpsert])

/-! ### Cursor-based roster crawler (`fetchGamesByPlatform`) -/

/-- `escapeSparqlString`: double every backslash, then put a backslash
before every double quote.  The two sequential `replaceAll` passes touch
disjoint characters, so they equal this per-character expansion. -/
def escapeSparqlString (value : String) : String :=
  String.mk (value.data.flatMap fun c =>
    if c = '\\' then ['\\', '\\']
    else if c = '"' then ['\\', '"']
    else [c])

/-- The `cursorFilter` string interpolated into the query; empty for a null
cursor (start of roster). -/
def cursorFilterClause : Option String → String
  | some cursorQid => "FILTER(?gameQid > \"" ++ escapeSparqlString cursorQid ++ "\")"
  | none => ""

/-- `buildGamesQuery` from the roster crawler. -/
def buildGamesQuery (platformQid : String) (cursorQid : Option String)
    (pageSize : Nat) : String :=
  "\nSELECT DISTINCT ?game ?gameQid ?gameLabel WHERE \x7b\n  ?game wdt:P31 wd:Q7889 ;\n        wdt:P400 wd:" ++
    platformQid ++
    " .\n  BIND(STRAFTER(STR(?game), \"http://www.wikidata.org/entity/\") AS ?gameQid)\n  " ++
    cursorFilterClause cursorQid ++
    "\n  SERVICE wikibase:label \x7b bd:serviceParam wikibase:language \"en\". \x7d\n\x7d\nORDER BY ?gameQid\nLIMIT " ++
    toString pageSize ++ "\n"

structure RosterRow where
  qid : String
  title : String

/-- A WDQS result binding, projected to the two variables read. -/
structure WdqsBinding where
  gameQid : Option String
  gameLabel : Option String

/-- Row order: ascending `qid.localeCompare`, modelled by the string order. -/
def rosterAsc (a b : RosterRow) : Prop := charListLe a.qid.data b.qid.data = true

instance : DecidableRel rosterAsc :=
  fun a b => inferInstanceAs (Decidable (charListLe a.qid.data b.qid.data = true))

/-- `parseRosterRows`: dedupe by qid into a `Map` (later binding wins), then
sort ascending by qid. -/
def parseRosterRows (bindings : List WdqsBinding) : List RosterRow :=
  let rows :=
    bindings.foldl
      (fun m binding =>
        match binding.gameQid with
        | some qid =>
          if ¬jsStartsWith qid "Q" then m
          else mapSet m qid ⟨qid, jsTrimOrElse binding.gameLabel qid⟩
        | none => m)
      []
  List.insertionSort rosterAsc (rows.map (·.2))

/-- One committed page of `ingestPlatform`: the parsed rows and the cursor
written in the same transaction (`gamesCursorQid := lastQid`). -/
structure PageCommit where
  rows : List RosterRow
  cursor : String

/-- The paging loop of `ingestPlatform`, as the trace of committed pages.
`fetch c` stands for the bindings WDQS returns for `buildGamesQuery` with
cursor `c`; `fuel` bounds the iteration count (the source loops until an
empty or short page). -/
def ingestTrace (fetch : Option String → List WdqsBinding) (pageSize : Nat) :
    Nat → Option String → List PageCommit
  | 0, _ => []
  | fuel + 1, cursor =>
    let rows := parseRosterRows (fetch cursor)
    match rows.getLast? with
    | none => []
    | some lastRow =>
      ⟨rows, lastRow.qid⟩ ::
        (if rows.length < pageSize then []
         else ingestTrace fetch pageSize fuel (some lastRow.qid))

/-! ### Configuration and user agent (`lib/config.ts`, `lib/wdqs.ts`) -/

/-- JavaScript `a || b` on an environment string. -/
def jsOrElse (a : Option String) (b : String) : String :=
  match a with
  | some s => if s.isEmpty then b else s
  | none => b

/-- `CONFIG.userAgent`: `WIKIDATA_USER_AGENT || USER_AGENT || ""`. -/
def envUserAgent (env : String → Option String) : String :=
  jsOrElse (env "WIKIDATA_USER_AGENT") (jsOrElse (env "USER_AGENT") "")

/-- `parseIntEnv`: positive integer with fallback, never throws. -/
def parseIntEnvM (env : String → Option String) (name : String)
    (fallback : Int) : Int :=
  match env name with
  | none => fallback
  | some raw =>
    if raw.isEmpty then fallback
    else
      match jsParseInt raw with
      | some parsed => if parsed > 0 then parsed else fallback
      | none => fallback

/-- `parseWdqsPageSize`: the one config guard that can throw at module
initialization. -/
def parseWdqsPageSize (env : String → Option String) : Except String Int :=
  match (env "WDQS_PAGE_SIZE").orElse (fun _ => env "PAGE_SIZE") with
  | none => .ok 2000
  | some raw =>
    if raw.isEmpty then .ok 2000
    else
      match jsParseInt raw with
      | none => .ok 2000
      | some parsed =>
        if parsed ≤ 0 then .ok 2000
        else if parsed < 200 then
          .error "Invalid WDQS page size. Use WDQS_PAGE_SIZE >= 200 to avoid extremely slow paging."
        else .ok parsed

/-- The fields of `CONFIG` relevant to the query-service client (the delay
range and platform-selection knobs never throw and are omitted). -/
structure WdqsConfig where
  userAgent : String
  wdqsEndpoint : String
  maxRetries : Int
  wdqsPageSize : Int
  wdqsMinIntervalMs : Int

/-- Module initialization of `lib/config.ts` (`CONFIG` is built at import
time, i.e. at startup): it can only fail through `parseWdqsPageSize`. -/
def configInit (env : String → Option String) : Except String WdqsConfig :=
  match parseWdqsPageSize env with
  | .error e => .error e
  | .ok pageSize =>
    .ok { userAgent := envUserAgent env
          wdqsEndpoint := jsOrElse (env "WDQS_ENDPOINT") "https://query.wikidata.org/sparql"
          maxRetries := parseIntEnvM env "MAX_RETRIES" 6
          wdqsPageSize := pageSize
          wdqsMinIntervalMs := parseIntEnvM env "WDQS_MIN_INTERVAL_MS" 250 }

/-- `requireUserAgent` from `lib/config.ts`. -/
def requireUserAgent (cfg : WdqsConfig) : Except String Unit :=
  if (jsTrim cfg.userAgent).isEmpty then
    .error "Missing WIKIDATA_USER_AGENT (or USER_AGENT) in .env"
  else .ok ()

inductive WdqsEvent where
  | request
  deriving DecidableEq, Repr

/-- The entry of `wdqs(query)` in `lib/wdqs.ts`: `requireUserAgent()` runs
first; only afterwards is the upstream request issued.  (The rate window,
retry loop and response parsing sit behind the request event.) -/
def wdqsRun (cfg : WdqsConfig) : Except String Unit × List WdqsEvent :=
  match requireUserAgent cfg with
  | .error e => (.error e, [])
  | .ok _ => (.ok (), [.request])

/-- `defaultUserAgent` from `wikiClient.ts`. -/
def defaultUserAgent (env : String → Option String) : String :=
  jsOrElse (env "WIKIDATA_USER_AGENT")
    (jsOrElse (env "USER_AGENT") "video-game-db-app/0.1 (local-ingestion-script)")

/-- The `WikiClient` constructor's user agent:
`options.userAgent ?? defaultUserAgent()`; the constructor never throws. -/
def wikiClientUserAgent (optionsUserAgent : Option String)
    (env : String → Option String) : String :=
  optionsUserAgent.getD (defaultUserAgent env)

/-! ## Lemmas -/

/-! ### `mapSet` and `dedupeRows` -/

theorem mem_mapSet {V : Type} {m : List (String × V)} {k : String} {v : V}
    {p : String × V} (hp : p ∈ mapSet m k v) : p ∈ m ∨ p = (k, v) := by
  unfold mapSet at hp
  by_cases h : m.any (fun q => q.1 = k) = true
  · rw [if_pos h] at hp
    rcases List.mem_map.1 hp with ⟨q, hq, rfl⟩
    by_cases hqk : q.1 = k
    · simp [hqk]
    · simp only [hqk, if_false]
      exact Or.inl hq
  · rw [if_neg h] at hp
    simpa using hp

theorem foldl_mapSet_values_subset {V : Type} (f : V → String) :
    ∀ (rows : List V) (m : List (String × V)) (p : String × V),
      p ∈ rows.foldl (fun m row => mapSet m (f row) row) m → p ∈ m ∨ p.2 ∈ rows := by
  intro rows
  induction rows with
  | nil => intro m p hp; exact Or.inl hp
  | cons r rows ih =>
    intro m p hp
    rcases ih (mapSet m (f r) r) p hp with h | h
    · rcases mem_mapSet h with h' | h'
      · exact Or.inl h'
      · right; rw [h']; exact List.mem_cons_self _ _
    · right; exact List.mem_cons_of_mem _ h

/-- Every row of `dedupeRows rows keyFor` is a row of `rows`. -/
theorem mem_of_mem_dedupeRows {Row : Type} {rows : List Row} {keyFor : Row → String}
    {r : Row} (hr : r ∈ dedupeRows rows keyFor) : r ∈ rows := by
  unfold dedupeRows at hr
  rcases List.mem_map.1 hr with ⟨p, hp, rfl⟩
  rcases foldl_mapSet_values_subset keyFor rows [] p hp with h | h
  · cases h
  · exact h

/-! ### `createManySkip` -/

theorem createManySkip_nil {Row : Type} (conflict : Row → Row → Bool)
    (table : List Row) : createManySkip conflict table [] = table := rfl

theorem createManySkip_cons {Row : Type} (conflict : Row → Row → Bool)
    (table : List Row) (r : Row) (data : List Row) :
    createManySkip conflict table (r :: data) =
      createManySkip conflict
        (if table.any (fun x => conflict x r) then table else table ++ [r]) data := rfl

/-- `createManySkip` only appends: the result is the table followed by some
sublist of the data, each appended row non-conflicting with all rows before
it (in particular the insert is duplicate-free on the conflict key). -/
theorem createManySkip_spec {Row : Type} (conflict : Row → Row → Bool) :
    ∀ (data table : List Row),
      ∃ extra, createManySkip conflict table data = table ++ extra ∧
        (∀ r ∈ extra, r ∈ data) ∧
        List.Pairwise (fun a b => conflict a b = false) extra ∧
        (∀ r ∈ extra, ∀ x ∈ table, conflict x r = false) := by
  intro data
  induction data with
  | nil =>
    intro table
    refine ⟨[], ?_, ?_, ?_, ?_⟩
    · simp [createManySkip_nil]
    · simp
    · simp
    · simp
  | cons r data ih =>
    intro table
    rw [createManySkip_cons]
    by_cases h : table.any (fun x => conflict x r) = true
    · rw [if_pos h]
      obtain ⟨extra, heq, hsub, hpw, hnc⟩ := ih table
      refine ⟨extra, heq, ?_, hpw, hnc⟩
      exact fun x hx => List.mem_cons_of_mem _ (hsub x hx)
    · rw [if_neg h]
      obtain ⟨extra, heq, hsub, hpw, hnc⟩ := ih (table ++ [r])
      refine ⟨r :: extra, ?_, ?_, ?_, ?_⟩
      · rw [heq]; simp
      · intro x hx
        rcases List.mem_cons.1 hx with rfl | hx
        · exact List.mem_cons_self _ _
        · exact List.mem_cons_of_mem _ (hsub x hx)
      · refine List.pairwise_cons.2 ⟨?_, hpw⟩
        intro b hb
        exact hnc b hb r (by simp)
      · intro x hx y hy
        rcases List.mem_cons.1 hx with rfl | hx
        · rw [List.any_eq_true] at h
          push_neg at h
          have := h y hy
          simpa using this
        · exact hnc x hx y (List.mem_append_left _ hy)

/-- If a filter rejects every data row, it commutes with the insert. -/
theorem filter_createManySkip {Row : Type} (conflict : Row → Row → Bool)
    (p : Row → Bool) {data : List Row} (hdata : ∀ r ∈ data, p r = false)
    (table : List Row) :
    (createManySkip conflict table data).filter p = table.filter p := by
  obtain ⟨extra, heq, hsub, -, -⟩ := createManySkip_spec conflict data table
  rw [heq, List.filter_append]
  have : extra.filter p = [] := by
    apply List.filter_eq_nil_iff.2
    intro r hr
    simp [hdata r (hsub r hr)]
  rw [this, List.append_nil]

/-- Inserting data that wholly conflicts with the table is a no-op. -/
theorem createManySkip_eq_of_all_conflict {Row : Type} (conflict : Row → Row → Bool) :
    ∀ {data table : List Row},
      (∀ r ∈ data, table.any (fun x => conflict x r) = true) →
      createManySkip conflict table data = table := by
  intro data
  induction data with
  | nil => intro table _; rfl
  | cons r data ih =>
    intro table hall
    have hr := hall r (List.mem_cons_self _ _)
    rw [createManySkip_cons, if_pos hr]
    exact ih fun x hx => hall x (List.mem_cons_of_mem _ hx)

/-- After one insert pass, every data row conflicts with the table, provided
the conflict relation is reflexive on the data rows. -/
theorem createManySkip_all_conflict {Row : Type} (conflict : Row → Row → Bool) :
    ∀ (data : List Row), (∀ r ∈ data, conflict r r = true) →
    ∀ (table : List Row) (r : Row), r ∈ data →
      (createManySkip conflict table data).any (fun x => conflict x r) = true := by
  intro data
  induction data with
  | nil => intro _ table r hr; cases hr
  | cons s data ih =>
    intro hrefl table r hr
    rw [createManySkip_cons]
    by_cases h : table.any (fun x => conflict x s) = true
    · rw [if_pos h]
      rcases List.mem_cons.1 hr with rfl | hr'
      · obtain ⟨extra, heq, -, -, -⟩ := createManySkip_spec conflict data table
        rw [heq, List.any_append]
        rw [h]
        rfl
      · exact ih (fun x hx => hrefl x (List.mem_cons_of_mem _ hx)) table r hr'
    · rw [if_neg h]
      rcases List.mem_cons.1 hr with rfl | hr'
      · obtain ⟨extra, heq, -, -, -⟩ := createManySkip_spec conflict data (table ++ [r])
        rw [heq, List.any_append, List.any_append]
        have : [r].any (fun x => conflict x r) = true := by
          simp [hrefl r hr]
        rw [this]
        simp
      · exact ih (fun x hx => hrefl x (List.mem_cons_of_mem _ hx)) (table ++ [s]) r hr'

/-! ### `pickBestValue` -/

/-- The first element of maximal rank score, by direct recursion. -/
def firstMax {T : Type} : List (RankedValue T) → Option (RankedValue T)
  | [] => none
  | x :: xs =>
    match firstMax xs with
    | none => some x
    | some b => if x.rankScore < b.rankScore then some b else some x

theorem firstMax_isSome {T : Type} {l : List (RankedValue T)} (h : l ≠ []) :
    (firstMax l).isSome := by
  cases l with
  | nil => exact absurd rfl h
  | cons x xs =>
    simp only [firstMax]
    cases firstMax xs with
    | none => simp
    | some b =>
      by_cases hx : x.rankScore < b.rankScore <;> simp [hx]

/-- `pickBestValue` computes `firstMax`: the sort comparator orders by
descending rank score, the sort is stable, and the head of the sorted copy
is therefore the first element attaining the maximal score. -/
theorem pickBestValue_eq_firstMax {T : Type} (l : List (RankedValue T)) :
    pickBestValue l = firstMax l := by
  unfold pickBestValue
  induction l with
  | nil => simp [List.insertionSort, firstMax]
  | cons x xs ih =>
    simp only [List.insertionSort, firstMax]
    cases hs : List.insertionSort rankedDescending xs with
    | nil =>
      have : firstMax xs = none := by
        cases xs with
        | nil => rfl
        | cons y ys =>
          exfalso
          have := List.length_insertionSort (r := @rankedDescending T) (y :: ys)
          rw [hs] at this
          simp at this
      rw [hs] at ih
      simp only [List.head?] at ih
      rw [this]
      simp [List.orderedInsert]
    | cons h t =>
      rw [hs] at ih
      simp only [List.head?] at ih
      rw [← ih]
      simp only [List.orderedInsert]
      by_cases hle : rankedDescending x h
      · have hx : ¬x.rankScore < h.rankScore := by
          unfold rankedDescending at hle
          omega
        simp [hle, hx]
      · have hx : x.rankScore < h.rankScore := by
          unfold rankedDescending at hle
          omega
        simp [hle, hx]

/-- The selected value is one of the candidates. -/
theorem pickBestValue_mem {T : Type} {l : List (RankedValue T)}
    {v : RankedValue T} (h : pickBestValue l = some v) : v ∈ l := by
  unfold pickBestValue at h
  have hmem : v ∈ List.insertionSort rankedDescending l := by
    cases hs : List.insertionSort rankedDescending l with
    | nil => rw [hs] at h; cases h
    | cons a t =>
      rw [hs] at h
      simp only [List.head?] at h
      cases h
      exact List.mem_cons_self _ _
  exact (List.mem_insertionSort rankedDescending).1 hmem

/-- `firstMax` returns a maximal element. -/
theorem firstMax_is_max {T : Type} :
    ∀ {l : List (RankedValue T)} {v : RankedValue T}, firstMax l = some v →
      ∀ u ∈ l, u.rankScore ≤ v.rankScore := by
  intro l
  induction l with
  | nil => intro v h; cases h
  | cons x xs ih =>
    intro v h u hu
    simp only [firstMax] at h
    rcases List.mem_cons.1 hu with rfl | hu'
    · cases hb : firstMax xs with
      | none => rw [hb] at h; cases h; exact le_refl _
      | some b =>
        rw [hb] at h
        by_cases hx : u.rankScore < b.rankScore
        · simp only [hx, if_true] at h; cases h; omega
        · simp only [hx, if_false] at h; cases h; exact le_refl _
    · cases hb : firstMax xs with
      | none =>
        have hxs : xs = [] := by
          cases xs with
          | nil => rfl
          | cons y ys =>
            have hsome := firstMax_isSome (l := y :: ys) (by simp)
            rw [hb] at hsome
            simp at hsome
        rw [hxs] at hu'
        cases hu'
      | some b =>
        rw [hb] at h
        have hub := ih hb u hu'
        by_cases hx : x.rankScore < b.rankScore
        · simp only [hx, if_true] at h; cases h; exact hub
        · simp only [hx, if_false] at h; cases h; omega

/-- `firstMax` returns the first element attaining the maximum: everything
before it in the list has a strictly smaller rank score. -/
theorem firstMax_first {T : Type} :
    ∀ {l : List (RankedValue T)} {v : RankedValue T}, firstMax l = some v →
      ∃ pre post, l = pre ++ v :: post ∧
        ∀ u ∈ pre, u.rankScore < v.rankScore := by
  intro l
  induction l with
  | nil => intro v h; cases h
  | cons x xs ih =>
    intro v h
    simp only [firstMax] at h
    cases hb : firstMax xs with
    | none =>
      rw [hb] at h
      cases h
      exact ⟨[], xs, rfl, by simp⟩
    | some b =>
      rw [hb] at h
      by_cases hx : x.rankScore < b.rankScore
      · simp only [hx, if_true] at h
        cases h
        obtain ⟨pre, post, heq, hpre⟩ := ih hb
        refine ⟨x :: pre, post, by simp [heq], ?_⟩
        intro u hu
        rcases List.mem_cons.1 hu with rfl | hu'
        · exact hx
        · exact hpre u hu'
      · simp only [hx, if_false] at h
        cases h
        exact ⟨[], xs, rfl, by simp⟩

/-! ## Claim C7: date classification -/

/-- C7: decoding `"1998-11-23T00:00:00Z"` with precision 11 yields the full
date category (`YYYYMMMMDD`) with human form `1998-11-23`; precision 9 with
no month yields the year category (`YYYY`) with human form `1998`; and the
category depends only on the precision and the presence of month/day. -/
theorem C7_date_classification :
    (parseWikidataDateParts "1998-11-23T00:00:00Z" =
        ⟨some 1998, some 11, some 23⟩ ∧
      toReleaseDateCategory (some 11) (some 11) (some 23) = .YYYYMMMMDD ∧
      buildReleaseDateHuman 1998 (some 11) (some 23)
        (toReleaseDateCategory (some 11) (some 11) (some 23)) = "1998-11-23") ∧
    (toReleaseDateCategory (some 9) none none = .YYYY ∧
      buildReleaseDateHuman 1998 none none
        (toReleaseDateCategory (some 9) none none) = "1998") ∧
    (∀ p m m' d d' : Option Int, m.isSome = m'.isSome → d.isSome = d'.isSome →
      toReleaseDateCategory p m d = toReleaseDateCategory p m' d') := by
  refine ⟨⟨by decide, by decide, by decide⟩, ⟨by decide, by decide⟩, ?_⟩
  intro p m m' d d' hm hd
  unfold toReleaseDateCategory
  rw [hm, hd]

/-- Witness for C7: the invariance clause applied at concrete inputs. -/
theorem C7_date_classification_witness :
    toReleaseDateCategory (some 11) (some 12) (some 1) =
      toReleaseDateCategory (some 11) (some 3) (some 4) :=
  C7_date_classification.2.2 (some 11) (some 12) (some 3) (some 1) (some 4) rfl rfl

/-! ## Claim C2: scalar update gate -/

/-- Modelled from the spec's words for comparison (claim C2): "a scalar
update is applied only if the selected candidate's rank is at least normal
and the candidate's value differs from the value currently stored;
otherwise the stored value is left unchanged" — i.e. the gate should hold
iff the rank score is at least 1 (normal) and the value differs. -/
def specScalarGate (existingValue : Option ScalarValue) (nextValue : ScalarValue)
    (rankScore : Nat) : Prop :=
  shouldApplyScalarUpdate existingValue nextValue rankScore = true ↔
    (1 ≤ rankScore ∧ existingValue ≠ some nextValue)

/-- C2 counterexample: with a stored year 1999 and a differing normal-ranked
candidate 2000 (rank score 1 = "normal"), the code does NOT apply the update
(it requires rank score ≥ 2, i.e. preferred); and with no stored value the
code applies the update even at rank score 0 (below "normal").  Both
directions of the claimed gate fail. -/
theorem C2_counterexample :
    ¬specScalarGate (some (.num 1999)) (.num 2000) 1 ∧
      shouldApplyScalarUpdate none (.num 2000) 0 = true ∧
      getRankScore (some (.str "normal")) = 1 := by
  refine ⟨?_, by decide, by decide⟩
  intro hgate
  have := hgate.2 ⟨by decide, by decide⟩
  simp [shouldApplyScalarUpdate] at this

/-- C2 amended: a scalar update is applied iff the stored value is absent
(`null`, any rank), or the candidate's rank is "preferred" (score ≥ 2) and
the candidate's value differs from the stored one. -/
theorem C2_scalar_gate_amended (existingValue : Option ScalarValue)
    (nextValue : ScalarValue) (rankScore : Nat) :
    shouldApplyScalarUpdate existingValue nextValue rankScore = true ↔
      (existingValue = none ∨ (2 ≤ rankScore ∧ existingValue ≠ some nextValue)) := by
  cases existingValue with
  | none => simp [shouldApplyScalarUpdate]
  | some e =>
    simp only [shouldApplyScalarUpdate, Bool.and_eq_true, decide_eq_true_eq]
    constructor
    · rintro ⟨h1, h2⟩
      exact Or.inr ⟨h1, by simpa using h2⟩
    · rintro (h | ⟨h1, h2⟩)
      · cases h
      · exact ⟨h1, by simpa using h2⟩

/-! ## Claim C3: rank resolution -/

/-- Modelled from the spec's words for comparison (claim C3): the claimed
strict rank order "preferred > normal > deprecated > unranked". -/
def specRankScore (rank : Option Json) : Nat :=
  match rank with
  | some (.str "preferred") => 3
  | some (.str "normal") => 2
  | some (.str "deprecated") => 1
  | _ => 0

/-- An item statement for QID `Q1` with no rank field (unranked). -/
def exampleUnrankedStatement : Json :=
  .obj [("mainsnak",
    .obj [("snaktype", .str "value"),
          ("datavalue", .obj [("value", .obj [("id", .str "Q1")])])])]

/-- An item statement for QID `Q2` with rank `deprecated`. -/
def exampleDeprecatedStatement : Json :=
  .obj [("mainsnak",
    .obj [("snaktype", .str "value"),
          ("datavalue", .obj [("value", .obj [("id", .str "Q2")])])]),
    ("rank", .str "deprecated")]

/-- C3 counterexample: the code scores deprecated and unranked statements
identically (`getRankScore` maps both to 0), so an unranked candidate that
appears first beats a deprecated candidate, although under the claimed
order "preferred > normal > deprecated > unranked" the deprecated statement
has strictly greater rank and should win. -/
theorem C3_counterexample :
    pickBestValue (extractItemIds [exampleUnrankedStatement, exampleDeprecatedStatement]) =
        some ⟨"Q1", 0⟩ ∧
      specRankScore (exampleUnrankedStatement.get "rank") <
        specRankScore (exampleDeprecatedStatement.get "rank") ∧
      getRankScore (exampleUnrankedStatement.get "rank") =
        getRankScore (exampleDeprecatedStatement.get "rank") := by
  refine ⟨by decide, by decide, by decide⟩

/-- C3 amended: under the code's scores (preferred = 2 > normal = 1 >
deprecated = unranked = 0) the selected candidate of a non-empty list is
the first candidate of maximal rank score: a preferred statement wins
regardless of position, and among candidates of equal score — including a
deprecated vs. an unranked one — the first in statement order wins. -/
theorem C3_rank_resolution_amended {T : Type} (values : List (RankedValue T))
    (h : values ≠ []) :
    (getRankScore (some (.str "preferred")) = 2 ∧
      getRankScore (some (.str "normal")) = 1 ∧
      getRankScore (some (.str "deprecated")) = 0 ∧
      getRankScore none = 0) ∧
    ∃ v, pickBestValue values = some v ∧
      (∀ u ∈ values, u.rankScore ≤ v.rankScore) ∧
      ∃ pre post, values = pre ++ v :: post ∧
        ∀ u ∈ pre, u.rankScore < v.rankScore := by
  refine ⟨⟨rfl, rfl, rfl, rfl⟩, ?_⟩
  have hsome := firstMax_isSome h
  cases hv : firstMax values with
  | none => rw [hv] at hsome; cases hsome
  | some v =>
    refine ⟨v, ?_, firstMax_is_max hv, firstMax_first hv⟩
    rw [pickBestValue_eq_firstMax, hv]

/-- Witness for C3 amended: a preferred value listed last wins over earlier
normal and deprecated values. -/
theorem C3_rank_resolution_amended_witness :
    (getRankScore (some (.str "preferred")) = 2 ∧
      getRankScore (some (.str "normal")) = 1 ∧
      getRankScore (some (.str "deprecated")) = 0 ∧
      getRankScore none = 0) ∧
    ∃ v, pickBestValue [(⟨"A", 0⟩ : RankedValue String), ⟨"B", 1⟩, ⟨"C", 2⟩] = some v ∧
      (∀ u ∈ [(⟨"A", 0⟩ : RankedValue String), ⟨"B", 1⟩, ⟨"C", 2⟩],
        u.rankScore ≤ v.rankScore) ∧
      ∃ pre post,
        [(⟨"A", 0⟩ : RankedValue String), ⟨"B", 1⟩, ⟨"C", 2⟩] = pre ++ v :: post ∧
        ∀ u ∈ pre, u.rankScore < v.rankScore :=
  C3_rank_resolution_amended [⟨"A", 0⟩, ⟨"B", 1⟩, ⟨"C", 2⟩] (by decide)

/-! ## Claim C8: user agent fail-fast -/

/-- An environment with no variables set (no user agent configured). -/
def emptyEnv : String → Option String := fun _ => none

/-- C8 counterexample: with no user agent configured anywhere, module
initialization of the configuration (startup) succeeds instead of failing
fast — `CONFIG` is built with an empty `userAgent` — and the document-API
client does not fail either: its constructor falls back to the built-in
default identifier.  The pipeline therefore does not fail at startup. -/
theorem C8_counterexample :
    configInit emptyEnv =
      .ok { userAgent := ""
            wdqsEndpoint := "https://query.wikidata.org/sparql"
            maxRetries := 6
            wdqsPageSize := 2000
            wdqsMinIntervalMs := 250 } ∧
    wikiClientUserAgent none emptyEnv =
      "video-game-db-app/0.1 (local-ingestion-script)" := by
  exact ⟨rfl, rfl⟩

/-- C8 amended: an unconfigured user agent is only detected at call time —
`wdqs` throws from `requireUserAgent()` before issuing its upstream request
(zero request events), not at startup; and the document-API client
(`WikiClient`) never fails at all: with no option and no environment
variables it uses the built-in default identifier. -/
theorem C8_user_agent_amended (cfg : WdqsConfig)
    (h : (jsTrim cfg.userAgent).isEmpty = true) :
    wdqsRun cfg =
      (.error "Missing WIKIDATA_USER_AGENT (or USER_AGENT) in .env", []) ∧
    (∀ env : String → Option String,
      env "WIKIDATA_USER_AGENT" = none → env "USER_AGENT" = none →
      wikiClientUserAgent none env =
        "video-game-db-app/0.1 (local-ingestion-script)") := by
  constructor
  · unfold wdqsRun requireUserAgent
    rw [if_pos h]
  · intro env h1 h2
    simp [wikiClientUserAgent, defaultUserAgent, jsOrElse, h1, h2]

/-- Witness for C8 amended, at the empty environment's configuration. -/
theorem C8_user_agent_amended_witness :
    wdqsRun { userAgent := ""
              wdqsEndpoint := "https://query.wikidata.org/sparql"
              maxRetries := 6
              wdqsPageSize := 2000
              wdqsMinIntervalMs := 250 } =
      (.error "Missing WIKIDATA_USER_AGENT (or USER_AGENT) in .env", []) ∧
    (∀ env : String → Option String,
      env "WIKIDATA_USER_AGENT" = none → env "USER_AGENT" = none →
      wikiClientUserAgent none env =
        "video-game-db-app/0.1 (local-ingestion-script)") :=
  C8_user_agent_amended _ rfl

/-! ## Claim C5: cache short-circuit -/

/-- C5: for a wiki page whose cached revision equals the probed revision,
and for an entity whose cached `lastrevid` equals the probed one,
`getOrFetch*` returns the cached payload as a `cache-hit`, performs exactly
one network request (the metadata probe), zero heavyweight fetches, and no
cache write. -/
theorem C5_cache_short_circuit
    (envP : WikiPageEnv) (site title : String) (pm : PageMeta) (r : Int)
    (row : WikiPageCacheRow)
    (hpm : envP.metaPages.head? = some pm) (hmiss : pm.missing = false)
    (hrev : ((pm.revisions.head?).bind (·.revid)) = some r) (hr0 : r ≠ 0)
    (hcache : envP.cache site (jsTrimOrElse pm.title title) = some row)
    (hrow : row.revid = some r)
    (envE : WikidataEntityEnv) (qid : String) (info : EntityInfo) (rv : Int)
    (erow : WikidataEntityCacheRow)
    (hq : isQidFormat (jsToUpper qid) = true)
    (hinfo : envE.infoEntities (jsToUpper qid) = some info)
    (hemiss : info.missingFlag ≠ some "")
    (hlast : info.lastrevid = some rv) (hrv0 : rv ≠ 0)
    (hecache : envE.cache (jsToUpper qid) = some erow)
    (herow : erow.lastrevid = some rv) :
    getOrFetchWikiPage envP site title =
      (.ok { site := site, title := jsTrimOrElse pm.title title,
             revid := some r, payloadJson := row.payloadJson,
             payloadText := row.payloadText, source := "cache-hit" },
        [.metaRequest]) ∧
    getOrFetchWikidataEntity envE qid =
      (.ok { qid := jsToUpper qid, lastrevid := some rv,
             entityJson := erow.entityJson, source := "cache-hit" },
        [.metaRequest]) := by
  constructor
  · simp [getOrFetchWikiPage, hpm, hmiss, hrev, hrow, hcache, jsTruthyInt, hr0]
  · simp [getOrFetchWikidataEntity, hq, hinfo, hemiss, hlast, herow, hecache,
      jsTruthyInt, hrv0]

/-- A concrete cache-hit environment for the page variant. -/
def pageEnvX : WikiPageEnv :=
  { metaPages := [{ missing := false, title := some "Doom",
                    revisions := [{ revid := some 7 }] }]
    contentPages := []
    contentPayload := .null
    cache := fun _ _ =>
      some { revid := some 7, payloadJson := .str "cached", payloadText := some "wikitext" } }

/-- A concrete cache-hit environment for the entity variant. -/
def entityEnvX : WikidataEntityEnv :=
  { infoEntities := fun _ => some { missingFlag := none, lastrevid := some 9 }
    fullEntities := fun _ => none
    cache := fun _ => some { lastrevid := some 9, entityJson := .str "entity" } }

/-- Witness for C5 at the concrete environments. -/
theorem C5_cache_short_circuit_witness :
    getOrFetchWikiPage pageEnvX "wikipedia:en" "Doom" =
      (.ok { site := "wikipedia:en", title := "Doom", revid := some 7,
             payloadJson := .str "cached", payloadText := some "wikitext",
             source := "cache-hit" },
        [.metaRequest]) ∧
    getOrFetchWikidataEntity entityEnvX "q42" =
      (.ok { qid := "Q42", lastrevid := some 9, entityJson := .str "entity",
             source := "cache-hit" },
        [.metaRequest]) :=
  C5_cache_short_circuit pageEnvX "wikipedia:en" "Doom"
    { missing := false, title := some "Doom", revisions := [{ revid := some 7 }] }
    7 { revid := some 7, payloadJson := .str "cached", payloadText := some "wikitext" }
    rfl rfl rfl (by decide) rfl rfl
    entityEnvX "q42" { missingFlag := none, lastrevid := some 9 } 9
    { lastrevid := some 9, entityJson := .str "entity" }
    (by decide) rfl (by decide) rfl (by decide) rfl rfl

/-! ## Claim C10: release-date bounds -/

theorem parseWikidataDateParts_year_pos {s : String} {y : Int}
    (hy : (parseWikidataDateParts s).year = some y) : 1 ≤ y := by
  unfold parseWikidataDateParts at hy
  split at hy
  · split at hy
    · split at hy
      · simp only [DateParts.year] at hy
        cases hy
        omega
      · simp only [DateParts.year] at hy
        cases hy
    · simp only [DateParts.year] at hy
      cases hy
  · split at hy
    · simp only [DateParts.year] at hy
      cases hy
    · split at hy
      · simp only [DateParts.year] at hy
        cases hy
      · simp only [DateParts.year] at hy
        cases hy
        omega

theorem parseWikidataDateParts_month_bounds {s : String} {m : Int}
    (hm : (parseWikidataDateParts s).month = some m) : 1 ≤ m ∧ m ≤ 12 := by
  unfold parseWikidataDateParts at hm
  split at hm
  · split at hm
    · split at hm
      · simp only [DateParts.month] at hm
        cases hm
      · simp only [DateParts.month] at hm
        cases hm
    · simp only [DateParts.month] at hm
      cases hm
  · split at hm
    · simp only [DateParts.month] at hm
      cases hm
    · split at hm
      · simp only [DateParts.month] at hm
        cases hm
      · simp only [DateParts.month] at hm
        split at hm
        · cases hm
          omega
        · cases hm

theorem parseWikidataDateParts_day_bounds {s : String} {d : Int}
    (hd : (parseWikidataDateParts s).day = some d) : 1 ≤ d ∧ d ≤ 31 := by
  unfold parseWikidataDateParts at hd
  split at hd
  · split at hd
    · split at hd
      · simp only [DateParts.day] at hd
        cases hd
      · simp only [DateParts.day] at hd
        cases hd
    · simp only [DateParts.day] at hd
      cases hd
  · split at hd
    · simp only [DateParts.day] at hd
      cases hd
    · split at hd
      · simp only [DateParts.day] at hd
        cases hd
      · simp only [DateParts.day] at hd
        split at hd
        · cases hd
          omega
        · cases hd

/-- Fold invariant: a step that either keeps the accumulator or appends one
element satisfying `P` only produces elements of the seed or elements
satisfying `P`. -/
theorem foldl_append_invariant {A B : Type} (f : List A → B → List A) (P : A → Prop)
    (hf : ∀ acc b, f acc b = acc ∨ ∃ x, f acc b = acc ++ [x] ∧ P x) :
    ∀ (l : List B) (acc : List A) (y : A), y ∈ List.foldl f acc l → y ∈ acc ∨ P y := by
  intro l
  induction l with
  | nil => intro acc y hy; exact Or.inl hy
  | cons b l ih =>
    intro acc y hy
    simp only [List.foldl_cons] at hy
    rcases ih (f acc b) y hy with h | h
    · rcases hf acc b with he | ⟨x, he, hx⟩
      · rw [he] at h; exact Or.inl h
      · rw [he] at h
        rcases List.mem_append.1 h with h' | h'
        · exact Or.inl h'
        · simp only [List.mem_singleton] at h'
          subst h'
          exact Or.inr hx
    · exact Or.inr h

/-- Validity of a derived time value: positive year, month/day in range. -/
def TimeValueValid (tv : TimeValue) : Prop :=
  1 ≤ tv.year ∧
    (tv.month = none ∨ ∃ m, tv.month = some m ∧ 1 ≤ m ∧ m ≤ 12) ∧
    (tv.day = none ∨ ∃ d, tv.day = some d ∧ 1 ≤ d ∧ d ≤ 31)

theorem extractTimeValues_valid {statements : List Json} {tv : TimeValue}
    (h : tv ∈ extractTimeValues statements) : TimeValueValid tv := by
  unfold extractTimeValues at h
  have key := foldl_append_invariant _ TimeValueValid ?_ statements [] tv h
  · rcases key with h' | h'
    · cases h'
    · exact h'
  · intro acc b
    cases hmv : getMainSnakDataValue b with
    | none => left; simp [hmv]
    | some dataValue =>
      by_cases hobj : dataValue.isObject = true
      swap
      · left; simp [hmv, hobj]
      cases hns : normalizeString (dataValue.get "time") with
      | none => left; simp [hmv, hobj, hns]
      | some time =>
        cases hyr : (parseWikidataDateParts time).year with
        | none => left; simp [hmv, hobj, hns, hyr]
        | some year =>
          right
          refine ⟨{ claimId := getClaimId b
                    rankScore := getRankScore (b.get "rank")
                    rank := toStatementRank (b.get "rank")
                    time := time
                    precision :=
                      match dataValue.get "precision" with
                      | some (Json.num p) => some p
                      | _ => none
                    year := year
                    month := (parseWikidataDateParts time).month
                    day := (parseWikidataDateParts time).day
                    platformQid := extractQualifierItemId b ["P400"]
                    regionQid := extractQualifierItemId b ["P291", "P3005"]
                    claimJson := if b.isObject then some b else none }, ?_, ?_⟩
          · simp [hmv, hobj, hns, hyr]
          refine ⟨parseWikidataDateParts_year_pos hyr, ?_, ?_⟩
          · cases hmo : (parseWikidataDateParts time).month with
            | none => exact Or.inl rfl
            | some m =>
              exact Or.inr ⟨m, rfl, parseWikidataDateParts_month_bounds hmo⟩
          · cases hda : (parseWikidataDateParts time).day with
            | none => exact Or.inl rfl
            | some d =>
              exact Or.inr ⟨d, rfl, parseWikidataDateParts_day_bounds hda⟩

theorem mem_perGameRows {Row : Type} {games : List CandidateGame}
    {f : String → Option Json → List Row} {r : Row}
    (h : r ∈ perGameRows games f) :
    ∃ g ∈ games, ∃ claims, claimsOf g = some claims ∧ r ∈ f g.qid (some claims) := by
  unfold perGameRows at h
  rcases List.mem_flatMap.1 h with ⟨g, hg, hr⟩
  cases hc : claimsOf g with
  | none => rw [hc] at hr; cases hr
  | some claims => exact ⟨g, hg, claims, hc, by rwa [hc] at hr⟩

theorem mem_releaseDateRowsFor {qid : String} {claims : Option Json}
    {entries : List PropertyRegistryEntry} {row : ReleaseDateRow}
    (h : row ∈ releaseDateRowsFor qid claims entries) :
    ∃ tv : TimeValue,
      (∃ e ∈ entries, tv ∈ extractTimeValues (getPropertyStatements claims e.propertyId)) ∧
      row.year = tv.year ∧ row.month = tv.month ∧ row.day = tv.day := by
  unfold releaseDateRowsFor at h
  rcases List.mem_flatMap.1 h with ⟨e, he, hr⟩
  rcases List.mem_map.1 hr with ⟨tv, htv, rfl⟩
  exact ⟨tv, ⟨e, he, htv⟩, rfl, rfl, rfl⟩

/-- C10: every release-date row emitted by normalization has year ≥ 1 and
month/day either null or within 1..12 / 1..31; and the scalar release-date
candidate is always one of the derived time values (so a statement with a
non-positive or unparsable year, which yields no time value, is never
selected and yields no row). -/
theorem C10_release_date_bounds (games : List CandidateGame)
    (entries : List PropertyRegistryEntry) :
    (∀ row ∈ (parseBatch games entries).releaseDateRows,
      1 ≤ row.year ∧
        (row.month = none ∨ ∃ m, row.month = some m ∧ 1 ≤ m ∧ m ≤ 12) ∧
        (row.day = none ∨ ∃ d, row.day = some d ∧ 1 ≤ d ∧ d ≤ 31)) ∧
    (∀ (statements : List Json) (v : RankedValue TimeValue),
      pickBestValue
          ((extractTimeValues statements).map fun value => ⟨value, value.rankScore⟩) =
        some v →
      v.value ∈ extractTimeValues statements ∧ 1 ≤ v.value.year) := by
  constructor
  · intro row hrow
    have hrow' : row ∈ perGameRows games
        (releaseDateRowsFor · · (entries.filter (·.target = "game.releaseDate"))) :=
      mem_of_mem_dedupeRows hrow
    obtain ⟨g, -, claims, -, hmem⟩ := mem_perGameRows hrow'
    obtain ⟨tv, ⟨e, he, htv⟩, hy, hm, hd⟩ := mem_releaseDateRowsFor hmem
    have hvalid := extractTimeValues_valid htv
    rw [hy, hm, hd]
    exact hvalid
  · intro statements v hv
    have hmem := pickBestValue_mem hv
    rcases List.mem_map.1 hmem with ⟨tv, htv, rfl⟩
    exact ⟨htv, (extractTimeValues_valid htv).1⟩

/-- A release-date statement with time `+1998-11-23T00:00:00Z`, precision
11, no rank, id or qualifiers. -/
def exampleTimeStatement : Json :=
  .obj [("mainsnak",
    .obj [("snaktype", .str "value"),
          ("datavalue",
            .obj [("value",
              .obj [("time", .str "+1998-11-23T00:00:00Z"), ("precision", .num 11)])])])]

/-- The time value derived from `exampleTimeStatement`. -/
def exampleTimeValue : TimeValue :=
  { claimId := none, rankScore := 0, rank := none,
    time := "+1998-11-23T00:00:00Z", precision := some 11,
    year := 1998, month := some 11, day := some 23,
    platformQid := none, regionQid := none,
    claimJson := some exampleTimeStatement }

/-- Witness for C10: the scalar-candidate clause applied at a concrete
statement list. -/
theorem C10_release_date_bounds_witness :
    exampleTimeValue ∈ extractTimeValues [exampleTimeStatement] ∧
      1 ≤ exampleTimeValue.year :=
  (C10_release_date_bounds [] []).2 [exampleTimeStatement]
    ⟨exampleTimeValue, 0⟩ rfl

/-! ## Row-shape lemmas: every parsed row belongs to a batch game -/

theorem platformRowsFor_gameQid {qid : String} {claims : Option Json}
    {entries : List PropertyRegistryEntry} {row : GamePlatformRow}
    (h : row ∈ platformRowsFor qid claims entries) : row.gameQid = qid := by
  unfold platformRowsFor at h
  rcases List.mem_flatMap.1 h with ⟨e, -, hr⟩
  rcases List.mem_map.1 hr with ⟨item, -, rfl⟩
  rfl

theorem tagRowsFor_gameQid {qid : String} {claims : Option Json}
    {entries : List PropertyRegistryEntry} {row : GameTagRow}
    (h : row ∈ tagRowsFor qid claims entries) : row.gameQid = qid := by
  unfold tagRowsFor at h
  rcases List.mem_flatMap.1 h with ⟨e, -, hr⟩
  cases hk : e.tagKind with
  | none => rw [hk] at hr; cases hr
  | some k =>
    rw [hk] at hr
    rcases List.mem_map.1 hr with ⟨item, -, rfl⟩
    rfl

theorem companyRowsFor_gameQid {qid : String} {claims : Option Json}
    {entries : List PropertyRegistryEntry} {row : GameCompanyRow}
    (h : row ∈ companyRowsFor qid claims entries) : row.gameQid = qid := by
  unfold companyRowsFor at h
  rcases List.mem_flatMap.1 h with ⟨e, -, hr⟩
  cases hk : e.companyRole with
  | none => rw [hk] at hr; cases hr
  | some k =>
    rw [hk] at hr
    rcases List.mem_map.1 hr with ⟨item, -, rfl⟩
    rfl

theorem relationRowsFor_fromGameQid {qid : String} {claims : Option Json}
    {entries : List PropertyRegistryEntry} {row : GameRelationRow}
    (h : row ∈ relationRowsFor qid claims entries) : row.fromGameQid = qid := by
  unfold relationRowsFor at h
  rcases List.mem_flatMap.1 h with ⟨e, -, hr⟩
  cases hk : e.relationKind with
  | none => rw [hk] at hr; cases hr
  | some k =>
    rw [hk] at hr
    rcases List.mem_map.1 hr with ⟨item, -, rfl⟩
    rfl

theorem releaseDateRowsFor_gameQid {qid : String} {claims : Option Json}
    {entries : List PropertyRegistryEntry} {row : ReleaseDateRow}
    (h : row ∈ releaseDateRowsFor qid claims entries) : row.gameQid = qid := by
  unfold releaseDateRowsFor at h
  rcases List.mem_flatMap.1 h with ⟨e, -, hr⟩
  rcases List.mem_map.1 hr with ⟨tv, -, rfl⟩
  rfl

theorem websiteRowsFor_gameQid {qid : String} {claims : Option Json}
    {entries : List PropertyRegistryEntry} {row : WebsiteRow}
    (h : row ∈ websiteRowsFor qid claims entries) : row.gameQid = qid := by
  unfold websiteRowsFor at h
  rcases List.mem_flatMap.1 h with ⟨e, -, hr⟩
  rcases List.mem_map.1 hr with ⟨item, -, rfl⟩
  rfl

theorem externalRowsFor_gameQid {qid : String} {claims : Option Json}
    {entries : List PropertyRegistryEntry} {row : ExternalGameRow}
    (h : row ∈ externalRowsFor qid claims entries) : row.gameQid = qid := by
  unfold externalRowsFor at h
  rcases List.mem_flatMap.1 h with ⟨e, -, hr⟩
  cases hk : e.externalCategory with
  | none => rw [hk] at hr; cases hr
  | some k =>
    rw [hk] at hr
    rcases List.mem_map.1 hr with ⟨item, -, rfl⟩
    rfl

theorem imageRowsFor_gameQid {qid : String} {claims : Option Json}
    {entries : List PropertyRegistryEntry} {row : GameImageRow}
    (h : row ∈ imageRowsFor qid claims entries) : row.gameQid = qid := by
  unfold imageRowsFor at h
  rcases List.mem_flatMap.1 h with ⟨e, -, hr⟩
  rcases List.mem_map.1 hr with ⟨item, -, rfl⟩
  rfl

theorem videoRowsFor_gameQid {qid : String} {claims : Option Json}
    {entries : List PropertyRegistryEntry} {row : GameVideoRow}
    (h : row ∈ videoRowsFor qid claims entries) : row.gameQid = qid := by
  unfold videoRowsFor at h
  rcases List.mem_flatMap.1 h with ⟨e, -, hr⟩
  cases hk : e.videoProvider with
  | none => rw [hk] at hr; cases hr
  | some k =>
    rw [hk] at hr
    rcases List.mem_map.1 hr with ⟨item, -, rfl⟩
    rfl

theorem ageRatingRowsFor_gameQid {qid : String} {claims : Option Json}
    {entries : List PropertyRegistryEntry} {row : GameAgeRatingRow}
    (h : row ∈ ageRatingRowsFor qid claims entries) : row.gameQid = qid := by
  unfold ageRatingRowsFor at h
  rcases List.mem_flatMap.1 h with ⟨e, -, hr⟩
  cases hk : e.ageRatingOrganization with
  | none => rw [hk] at hr; cases hr
  | some k =>
    rw [hk] at hr
    rcases List.mem_append.1 hr with hr' | hr' <;>
      · rcases List.mem_map.1 hr' with ⟨item, -, rfl⟩
        rfl

theorem scalarUpdates_qid {games : List CandidateGame}
    {entries : List PropertyRegistryEntry} {u : ScalarUpdate}
    (h : u ∈ (parseBatch games entries).scalarUpdates) :
    u.qid ∈ games.map (·.qid) := by
  rcases List.mem_filterMap.1 h with ⟨g, hg, hsome⟩
  refine List.mem_map.2 ⟨g, hg, ?_⟩
  cases hc : claimsOf g with
  | none => rw [hc] at hsome; cases hsome
  | some claims =>
    rw [hc] at hsome
    simp only at hsome
    split at hsome
    · cases hsome
    · cases hsome; rfl

/-- A generic membership transfer: rows of a deduped per-game component have
their delete key among the batch game qids. -/
theorem perGame_dedupe_key_mem {Row : Type} {games : List CandidateGame}
    {f : String → Option Json → List Row} {keyFor : Row → String}
    (delKey : Row → String)
    (hshape : ∀ qid claims (r : Row), r ∈ f qid claims → delKey r = qid)
    {r : Row} (h : r ∈ dedupeRows (perGameRows games f) keyFor) :
    delKey r ∈ games.map (·.qid) := by
  obtain ⟨g, hg, claims, -, hmem⟩ := mem_perGameRows (mem_of_mem_dedupeRows h)
  rw [hshape g.qid (some claims) r hmem]
  exact List.mem_map.2 ⟨g, hg, rfl⟩

/-! ## Generic table frame / idempotence lemmas -/

theorem length_sub_filter {α : Type} (p : α → Bool) (l : List α) :
    l.length - (l.filter p).length = (l.filter (fun x => !p x)).length := by
  induction l with
  | nil => simp
  | cons x l ih =>
    by_cases h : p x = true
    · simp [List.filter_cons, h]
      have := List.length_filter_le p l
      omega
    · have h' : p x = false := by simpa using h
      simp [List.filter_cons, h']
      have := List.length_filter_le p l
      omega

/-- Delete-then-insert leaves rows of an untouched delete key unchanged. -/
theorem table_frame {Row : Type} (conflict : Row → Row → Bool)
    (delKey : Row → String) (qids : List String) (T data : List Row)
    (hdata : ∀ r ∈ data, delKey r ∈ qids) (q : String) (hq : q ∉ qids) :
    (createManySkip conflict (T.filter (fun r => ¬qids.contains (delKey r)))
        data).filter (fun r => delKey r == q) =
      T.filter (fun r => delKey r == q) := by
  obtain ⟨extra, heq, hsub, -, -⟩ :=
    createManySkip_spec conflict data (T.filter (fun r => ¬qids.contains (delKey r)))
  rw [heq, List.filter_append]
  have hextra : extra.filter (fun r => delKey r == q) = [] := by
    apply List.filter_eq_nil_iff.2
    intro r hr
    have : delKey r ∈ qids := hdata r (hsub r hr)
    simp only [beq_iff_eq]
    intro hcontra
    rw [hcontra] at this
    exact hq this
  rw [hextra, List.append_nil, List.filter_filter]
  apply List.filter_congr
  intro r _
  by_cases hrq : delKey r = q
  · have hc : qids.contains (delKey r) = false := by
      rw [hrq]
      cases hcontains : qids.contains q with
      | false => rfl
      | true => exact absurd (List.mem_of_elem_eq_true hcontains) hq
    rw [hc]
    simp
  · have hb : (delKey r == q) = false := beq_false_of_ne hrq
    rw [hb]
    simp

theorem filter_map_id_on {α : Type} (m : α → α) (p : α → Bool)
    (h1 : ∀ g, p (m g) = p g) (h2 : ∀ g, p g = true → m g = g) :
    ∀ gs : List α, (gs.map m).filter p = gs.filter p := by
  intro gs
  induction gs with
  | nil => rfl
  | cons g gs ih =>
    simp only [List.map_cons, List.filter_cons]
    cases hp : p g with
    | true =>
      rw [h1 g, hp, h2 g hp, ih]
    | false =>
      rw [h1 g, hp, ih]
      simp

/-- Scalar updates for other games leave a game's row set unchanged. -/
theorem games_update_frame (now : Int) (q : String) :
    ∀ (us : List ScalarUpdate), (∀ u ∈ us, u.qid ≠ q) →
    ∀ gs : List GameRecord,
      (applyScalarUpdates now us gs).filter (fun g => g.qid == q) =
        gs.filter (fun g => g.qid == q) := by
  intro us
  induction us with
  | nil => intro _ gs; rfl
  | cons u us ih =>
    intro hus gs
    unfold applyScalarUpdates at *
    simp only [List.foldl_cons]
    rw [ih (fun v hv => hus v (List.mem_cons_of_mem _ hv))]
    apply filter_map_id_on
    · intro g
      by_cases hg : g.qid = u.qid
      · rw [if_pos hg]
        rfl
      · rw [if_neg hg]
    · intro g hp
      have hgq : g.qid = q := by simpa using hp
      rw [if_neg]
      rw [hgq]
      exact fun hc => hus u (List.mem_cons_self _ _) hc.symm

/-! ## Claim C9: frame effect of `applyBatch` -/

/-- C9: for a game qid not in the batch, `applyBatch` leaves all of its
derived relation rows (keyed by `gameQid`, resp. `fromGameQid` for
relations) and its `Game` record unchanged, and the shared tag and company
catalogs are only extended, never shrunk or rewritten. -/
theorem C9_frame_effect (now : Int) (S : Store) (games : List CandidateGame)
    (entries : List PropertyRegistryEntry) (q : String)
    (hq : q ∉ games.map (·.qid)) :
    ((applyBatch now S games (parseBatch games entries)).store.gamePlatform.filter
        (fun r => r.gameQid == q) =
      S.gamePlatform.filter (fun r => r.gameQid == q)) ∧
    ((applyBatch now S games (parseBatch games entries)).store.gameTag.filter
        (fun r => r.gameQid == q) =
      S.gameTag.filter (fun r => r.gameQid == q)) ∧
    ((applyBatch now S games (parseBatch games entries)).store.gameCompany.filter
        (fun r => r.gameQid == q) =
      S.gameCompany.filter (fun r => r.gameQid == q)) ∧
    ((applyBatch now S games (parseBatch games entries)).store.gameRelation.filter
        (fun r => r.fromGameQid == q) =
      S.gameRelation.filter (fun r => r.fromGameQid == q)) ∧
    ((applyBatch now S games (parseBatch games entries)).store.releaseDate.filter
        (fun r => r.gameQid == q) =
      S.releaseDate.filter (fun r => r.gameQid == q)) ∧
    ((applyBatch now S games (parseBatch games entries)).store.website.filter
        (fun r => r.gameQid == q) =
      S.website.filter (fun r => r.gameQid == q)) ∧
    ((applyBatch now S games (parseBatch games entries)).store.externalGame.filter
        (fun r => r.gameQid == q) =
      S.externalGame.filter (fun r => r.gameQid == q)) ∧
    ((applyBatch now S games (parseBatch games entries)).store.gameImage.filter
        (fun r => r.gameQid == q) =
      S.gameImage.filter (fun r => r.gameQid == q)) ∧
    ((applyBatch now S games (parseBatch games entries)).store.gameVideo.filter
        (fun r => r.gameQid == q) =
      S.gameVideo.filter (fun r => r.gameQid == q)) ∧
    ((applyBatch now S games (parseBatch games entries)).store.gameAgeRating.filter
        (fun r => r.gameQid == q) =
      S.gameAgeRating.filter (fun r => r.gameQid == q)) ∧
    ((applyBatch now S games (parseBatch games entries)).store.games.filter
        (fun g => g.qid == q) =
      S.games.filter (fun g => g.qid == q)) ∧
    (∃ extra, (applyBatch now S games (parseBatch games entries)).store.tags =
      S.tags ++ extra) ∧
    (∃ extra, (applyBatch now S games (parseBatch games entries)).store.companies =
      S.companies ++ extra) := by
  refine ⟨?_, ?_, ?_, ?_, ?_, ?_, ?_, ?_, ?_, ?_, ?_, ?_, ?_⟩
  · exact table_frame _ (fun r => r.gameQid) _ _ _
      (fun r hr => perGame_dedupe_key_mem (fun r => r.gameQid)
        (fun _ _ _ h => platformRowsFor_gameQid h) (List.mem_of_mem_filter hr)) q hq
  · exact table_frame _ (fun r => r.gameQid) _ _ _
      (fun r hr => perGame_dedupe_key_mem (fun r => r.gameQid)
        (fun _ _ _ h => tagRowsFor_gameQid h) hr) q hq
  · exact table_frame _ (fun r => r.gameQid) _ _ _
      (fun r hr => perGame_dedupe_key_mem (fun r => r.gameQid)
        (fun _ _ _ h => companyRowsFor_gameQid h) hr) q hq
  · exact table_frame _ (fun r => r.fromGameQid) _ _ _
      (fun r hr => perGame_dedupe_key_mem (fun r => r.fromGameQid)
        (fun _ _ _ h => relationRowsFor_fromGameQid h) (List.mem_of_mem_filter hr)) q hq
  · exact table_frame _ (fun r => r.gameQid) _ _ _
      (fun r hr => perGame_dedupe_key_mem (fun r => r.gameQid)
        (fun _ _ _ h => releaseDateRowsFor_gameQid h) hr) q hq
  · exact table_frame _ (fun r => r.gameQid) _ _ _
      (fun r hr => perGame_dedupe_key_mem (fun r => r.gameQid)
        (fun _ _ _ h => websiteRowsFor_gameQid h) hr) q hq
  · exact table_frame _ (fun r => r.gameQid) _ _ _
      (fun r hr => perGame_dedupe_key_mem (fun r => r.gameQid)
        (fun _ _ _ h => externalRowsFor_gameQid h) hr) q hq
  · exact table_frame _ (fun r => r.gameQid) _ _ _
      (fun r hr => perGame_dedupe_key_mem (fun r => r.gameQid)
        (fun _ _ _ h => imageRowsFor_gameQid h) hr) q hq
  · exact table_frame _ (fun r => r.gameQid) _ _ _
      (fun r hr => perGame_dedupe_key_mem (fun r => r.gameQid)
        (fun _ _ _ h => videoRowsFor_gameQid h) hr) q hq
  · exact table_frame _ (fun r => r.gameQid) _ _ _
      (fun r hr => perGame_dedupe_key_mem (fun r => r.gameQid)
        (fun _ _ _ h => ageRatingRowsFor_gameQid h) hr) q hq
  · exact games_update_frame now q _
      (fun u hu hc => hq (hc ▸ scalarUpdates_qid hu)) S.games
  · obtain ⟨extra, heq, -, -, -⟩ :=
      createManySkip_spec tagConflict
        ((parseBatch games entries).tagsToCreate.map (·.2)) S.tags
    exact ⟨extra, heq⟩
  · obtain ⟨extra, heq, -, -, -⟩ :=
      createManySkip_spec companyConflict
        ((parseBatch games entries).companiesToCreate.map (·.2)) S.companies
    exact ⟨extra, heq⟩

/-- An empty store. -/
def emptyStore : Store :=
  { platforms := [], games := [], tags := [], companies := [],
    gamePlatform := [], gameTag := [], gameCompany := [], gameRelation := [],
    releaseDate := [], website := [], externalGame := [], gameImage := [],
    gameVideo := [], gameAgeRating := [] }

/-- An item statement (no rank, no qualifiers) pointing at `targetQid`. -/
def itemStatement (targetQid : String) : Json :=
  .obj [("mainsnak",
    .obj [("snaktype", .str "value"),
          ("datavalue", .obj [("value", .obj [("id", .str targetQid)])])])]

/-- Witness data for C9: a store holding a tag row of game `Q9`, and a batch
containing only game `Q1`. -/
def gameC9 : CandidateGame :=
  { qid := "Q1", title := "g", claimsJson := .obj [], releaseYear := none,
    firstReleaseAt := none, imageCommons := none, imageUrl := none }

def storeC9 : Store :=
  { emptyStore with
    games := [{ qid := "Q1", title := "g", claimsJson := .obj [],
                releaseYear := none, firstReleaseAt := none,
                imageCommons := none, imageUrl := none, lastEnrichedAt := none }]
    gameTag := [{ gameQid := "Q9", tagId := "t1" }] }

/-- Witness for C9 at a concrete store and batch. -/
theorem C9_frame_effect_witness :
    ((applyBatch 0 storeC9 [gameC9] (parseBatch [gameC9] [])).store.gamePlatform.filter
        (fun r => r.gameQid == "Q9") =
      storeC9.gamePlatform.filter (fun r => r.gameQid == "Q9")) ∧
    ((applyBatch 0 storeC9 [gameC9] (parseBatch [gameC9] [])).store.gameTag.filter
        (fun r => r.gameQid == "Q9") =
      storeC9.gameTag.filter (fun r => r.gameQid == "Q9")) ∧
    ((applyBatch 0 storeC9 [gameC9] (parseBatch [gameC9] [])).store.gameCompany.filter
        (fun r => r.gameQid == "Q9") =
      storeC9.gameCompany.filter (fun r => r.gameQid == "Q9")) ∧
    ((applyBatch 0 storeC9 [gameC9] (parseBatch [gameC9] [])).store.gameRelation.filter
        (fun r => r.fromGameQid == "Q9") =
      storeC9.gameRelation.filter (fun r => r.fromGameQid == "Q9")) ∧
    ((applyBatch 0 storeC9 [gameC9] (parseBatch [gameC9] [])).store.releaseDate.filter
        (fun r => r.gameQid == "Q9") =
      storeC9.releaseDate.filter (fun r => r.gameQid == "Q9")) ∧
    ((applyBatch 0 storeC9 [gameC9] (parseBatch [gameC9] [])).store.website.filter
        (fun r => r.gameQid == "Q9") =
      storeC9.website.filter (fun r => r.gameQid == "Q9")) ∧
    ((applyBatch 0 storeC9 [gameC9] (parseBatch [gameC9] [])).store.externalGame.filter
        (fun r => r.gameQid == "Q9") =
      storeC9.externalGame.filter (fun r => r.gameQid == "Q9")) ∧
    ((applyBatch 0 storeC9 [gameC9] (parseBatch [gameC9] [])).store.gameImage.filter
        (fun r => r.gameQid == "Q9") =
      storeC9.gameImage.filter (fun r => r.gameQid == "Q9")) ∧
    ((applyBatch 0 storeC9 [gameC9] (parseBatch [gameC9] [])).store.gameVideo.filter
        (fun r => r.gameQid == "Q9") =
      storeC9.gameVideo.filter (fun r => r.gameQid == "Q9")) ∧
    ((applyBatch 0 storeC9 [gameC9] (parseBatch [gameC9] [])).store.gameAgeRating.filter
        (fun r => r.gameQid == "Q9") =
      storeC9.gameAgeRating.filter (fun r => r.gameQid == "Q9")) ∧
    ((applyBatch 0 storeC9 [gameC9] (parseBatch [gameC9] [])).store.games.filter
        (fun g => g.qid == "Q9") =
      storeC9.games.filter (fun g => g.qid == "Q9")) ∧
    (∃ extra, (applyBatch 0 storeC9 [gameC9] (parseBatch [gameC9] [])).store.tags =
      storeC9.tags ++ extra) ∧
    (∃ extra, (applyBatch 0 storeC9 [gameC9] (parseBatch [gameC9] [])).store.companies =
      storeC9.companies ++ extra) :=
  C9_frame_effect 0 storeC9 [gameC9] [] "Q9" (by decide)

/-! ## Claim C6: dangling-reference drop -/

/-- Claims of game `Q1`: a platform link to the nonexistent platform `Q77`
and a `follows` relation to the existing game `Q1` itself. -/
def claimsC6 : Json :=
  .obj [("P400", .arr [itemStatement "Q77"]),
        ("P155", .arr [itemStatement "Q1"])]

def storeC6 : Store :=
  { emptyStore with
    games := [{ qid := "Q1", title := "g", claimsJson := claimsC6,
                releaseYear := none, firstReleaseAt := none,
                imageCommons := none, imageUrl := none, lastEnrichedAt := none }] }

def gamesC6 : List CandidateGame := readGames storeC6 ["Q1"]

def parsedC6 : BatchRows := parseBatch gamesC6 (getHydratableRegistryEntries true)

/-- C6 counterexample: the batch writer drops the platform row whose target
platform `Q77` does not exist (it is never inserted, and the batch
commits), but it does NOT count that drop: the only counter the writer
returns, `skippedGameRelationRows`, stays 0.  The claim's "counts the drop"
fails for game-platform rows. -/
theorem C6_counterexample :
    parsedC6.gamePlatformRows.length = 1 ∧
    (applyBatch 0 storeC6 gamesC6 parsedC6).store.gamePlatform = [] ∧
    (applyBatch 0 storeC6 gamesC6 parsedC6).skippedGameRelationRows = 0 :=
  ⟨rfl, rfl, rfl⟩

/-- C6 amended: dangling game-relation rows are dropped AND counted
(`skippedGameRelationRows` is exactly the number of parsed relation rows
whose target game does not exist); dangling game-platform rows are dropped
but NOT counted; in both tables every row after the batch is either a
pre-existing row or a parsed row whose target exists; and the batch itself
commits (the writer is a total function returning the new store). -/
theorem C6_dangling_reference_amended (now : Int) (S : Store)
    (games : List CandidateGame) (parsed : BatchRows) :
    ((applyBatch now S games parsed).skippedGameRelationRows =
      (parsed.gameRelationRows.filter
        (fun row => !S.games.any (·.qid = row.toGameQid))).length) ∧
    (∀ r ∈ (applyBatch now S games parsed).store.gameRelation,
      r ∈ S.gameRelation ∨
        (r ∈ parsed.gameRelationRows ∧ S.games.any (·.qid = r.toGameQid) = true)) ∧
    (∀ r ∈ (applyBatch now S games parsed).store.gamePlatform,
      r ∈ S.gamePlatform ∨
        (r ∈ parsed.gamePlatformRows ∧ S.platforms.any (·.qid = r.platformQid) = true)) := by
  refine ⟨?_, ?_, ?_⟩
  · exact length_sub_filter _ _
  · intro r hr
    obtain ⟨extra, heq, hsub, -, -⟩ :=
      createManySkip_spec gameRelationConflict
        (parsed.gameRelationRows.filter
          (fun row => S.games.any (·.qid = row.toGameQid)))
        (S.gameRelation.filter (fun r => ¬(games.map (·.qid)).contains r.fromGameQid))
    rw [show (applyBatch now S games parsed).store.gameRelation =
        createManySkip gameRelationConflict
          (S.gameRelation.filter (fun r => ¬(games.map (·.qid)).contains r.fromGameQid))
          (parsed.gameRelationRows.filter
            (fun row => S.games.any (·.qid = row.toGameQid))) from rfl, heq] at hr
    rcases List.mem_append.1 hr with h | h
    · exact Or.inl (List.mem_of_mem_filter h)
    · have := hsub r h
      exact Or.inr (List.mem_filter.1 this)
  · intro r hr
    obtain ⟨extra, heq, hsub, -, -⟩ :=
      createManySkip_spec gamePlatformConflict
        (parsed.gamePlatformRows.filter
          (fun row => S.platforms.any (·.qid = row.platformQid)))
        (S.gamePlatform.filter (fun r => ¬(games.map (·.qid)).contains r.gameQid))
    rw [show (applyBatch now S games parsed).store.gamePlatform =
        createManySkip gamePlatformConflict
          (S.gamePlatform.filter (fun r => ¬(games.map (·.qid)).contains r.gameQid))
          (parsed.gamePlatformRows.filter
            (fun row => S.platforms.any (·.qid = row.platformQid))) from rfl, heq] at hr
    rcases List.mem_append.1 hr with h | h
    · exact Or.inl (List.mem_of_mem_filter h)
    · have := hsub r h
      exact Or.inr (List.mem_filter.1 this)

/-- The relation row derived from `claimsC6` whose target exists. -/
def relRowC6 : GameRelationRow :=
  { fromGameQid := "Q1", toGameQid := "Q1", kind := "FOLLOWS",
    source := "wikidata:P155" }

/-- Witness for C6 amended: the surviving relation row of the concrete batch
is a parsed row whose target game exists. -/
theorem C6_dangling_reference_amended_witness :
    relRowC6 ∈ storeC6.gameRelation ∨
      (relRowC6 ∈ parsedC6.gameRelationRows ∧
        storeC6.games.any (·.qid = relRowC6.toGameQid) = true) :=
  (C6_dangling_reference_amended 0 storeC6 gamesC6 parsedC6).2.1 relRowC6 (by decide)

/-! ## Claim C4: cursor monotonicity -/

theorem charListLe_refl : ∀ as, charListLe as as = true
  | [] => rfl
  | a :: as => by
    unfold charListLe
    rw [if_neg (lt_irrefl a.toNat), if_neg (lt_irrefl a.toNat)]
    exact charListLe_refl as

theorem charListLe_total : ∀ as bs, charListLe as bs = true ∨ charListLe bs as = true
  | [], bs => Or.inl rfl
  | a :: as, [] => Or.inr rfl
  | a :: as, b :: bs => by
    unfold charListLe
    by_cases h1 : a.toNat < b.toNat
    · left; rw [if_pos h1]
    · by_cases h2 : b.toNat < a.toNat
      · right; rw [if_pos h2]
      · rw [if_neg h1, if_neg h2, if_neg h2, if_neg h1]
        exact charListLe_total as bs

theorem charListLe_trans : ∀ as bs cs, charListLe as bs = true →
    charListLe bs cs = true → charListLe as cs = true
  | [], _, _ => fun _ _ => rfl
  | _ :: _, [], _ => fun h _ => by cases h
  | _ :: _, _ :: _, [] => fun _ h => by cases h
  | a :: as, b :: bs, c :: cs => by
    intro h1 h2
    unfold charListLe at h1 h2 ⊢
    split_ifs at h1 h2 ⊢ <;>
      first
      | rfl
      | exact Bool.noConfusion h1
      | exact Bool.noConfusion h2
      | exact charListLe_trans as bs cs h1 h2
      | omega

instance : IsTotal RosterRow rosterAsc :=
  ⟨fun a b => charListLe_total a.qid.data b.qid.data⟩

instance : IsTrans RosterRow rosterAsc :=
  ⟨fun a b c => charListLe_trans a.qid.data b.qid.data c.qid.data⟩

/-- In a sorted row list, the last row has the greatest identifier. -/
theorem sorted_last_greatest : ∀ {l : List RosterRow}, l.Sorted rosterAsc →
    ∀ {last}, l.getLast? = some last →
    ∀ x ∈ l, charListLe x.qid.data last.qid.data = true := by
  intro l
  induction l with
  | nil => intro _ last h; cases h
  | cons a t ih =>
    intro hs last hl x hx
    cases t with
    | nil =>
      simp only [List.getLast?_singleton] at hl
      cases hl
      rcases List.mem_singleton.1 hx with rfl
      exact charListLe_refl _
    | cons b t' =>
      have hl' : (b :: t').getLast? = some last := by
        rw [← hl, List.getLast?_cons_cons]
      rcases List.mem_cons.1 hx with rfl | hx'
      · exact (List.sorted_cons.1 hs).1 last (List.mem_of_mem_getLast? hl')
      · exact ih (List.sorted_cons.1 hs).2 hl' x hx'

theorem parseRosterRows_sorted (bindings : List WdqsBinding) :
    (parseRosterRows bindings).Sorted rosterAsc := by
  unfold parseRosterRows
  exact List.sorted_insertionSort rosterAsc _

theorem rosterFold_mem : ∀ (bindings : List WdqsBinding)
    (m : List (String × RosterRow)) (p : String × RosterRow),
    p ∈ bindings.foldl
      (fun m binding =>
        match binding.gameQid with
        | some qid =>
          if ¬jsStartsWith qid "Q" then m
          else mapSet m qid ⟨qid, jsTrimOrElse binding.gameLabel qid⟩
        | none => m) m →
    p ∈ m ∨ ∃ b ∈ bindings, b.gameQid = some p.2.qid := by
  intro bindings
  induction bindings with
  | nil => intro m p hp; exact Or.inl hp
  | cons b bs ih =>
    intro m p hp
    simp only [List.foldl_cons] at hp
    cases hb : b.gameQid with
    | none =>
      simp only [hb] at hp
      rcases ih _ p hp with h | ⟨b', hb', hq⟩
      · exact Or.inl h
      · exact Or.inr ⟨b', List.mem_cons_of_mem _ hb', hq⟩
    | some qid =>
      simp only [hb] at hp
      by_cases hq : jsStartsWith qid "Q" = true
      · rw [if_neg (by simp [hq])] at hp
        rcases ih _ p hp with h | ⟨b', hb', hq'⟩
        · rcases mem_mapSet h with h' | h'
          · exact Or.inl h'
          · refine Or.inr ⟨b, List.mem_cons_self _ _, ?_⟩
            rw [hb, h']
        · exact Or.inr ⟨b', List.mem_cons_of_mem _ hb', hq'⟩
      · rw [if_pos (by simpa using hq)] at hp
        rcases ih _ p hp with h | ⟨b', hb', hq'⟩
        · exact Or.inl h
        · exact Or.inr ⟨b', List.mem_cons_of_mem _ hb', hq'⟩

theorem parseRosterRows_from_binding {bindings : List WdqsBinding} {r : RosterRow}
    (h : r ∈ parseRosterRows bindings) : ∃ b ∈ bindings, b.gameQid = some r.qid := by
  unfold parseRosterRows at h
  have h1 := (List.mem_insertionSort rosterAsc).1 h
  rcases List.mem_map.1 h1 with ⟨p, hp, rfl⟩
  rcases rosterFold_mem bindings [] p hp with h' | h'
  · cases h'
  · exact h'

/-- The virtual commit standing for the initial cursor. -/
def initCommit : Option String → List PageCommit
  | some c => [⟨[], c⟩]
  | none => []

/-- Step relation between consecutive commits: every identifier of the next
page, and hence the next committed cursor, is strictly above the previous
cursor. -/
def pageStep (p1 p2 : PageCommit) : Prop :=
  (∀ r ∈ p2.rows, qidLt p1.cursor r.qid = true) ∧ qidLt p1.cursor p2.cursor = true

theorem ingestTrace_succ (fetch : Option String → List WdqsBinding)
    (pageSize fuel : Nat) (cursor : Option String) :
    ingestTrace fetch pageSize (fuel + 1) cursor =
      match (parseRosterRows (fetch cursor)).getLast? with
      | none => []
      | some lastRow =>
        ⟨parseRosterRows (fetch cursor), lastRow.qid⟩ ::
          (if (parseRosterRows (fetch cursor)).length < pageSize then []
           else ingestTrace fetch pageSize fuel (some lastRow.qid)) := rfl

/-- Replacing the head commit by one with the same cursor preserves the
chain (the step relation only reads the predecessor's cursor). -/
theorem chain_cons_cursor {a b : PageCommit} (hab : a.cursor = b.cursor)
    {l : List PageCommit} (h : List.Chain' pageStep (a :: l)) :
    List.Chain' pageStep (b :: l) := by
  cases l with
  | nil => exact List.chain'_singleton b
  | cons x l' =>
    rcases List.chain'_cons.1 h with ⟨hstep, hrest⟩
    exact List.chain'_cons.2 ⟨⟨fun r hr => hab ▸ hstep.1 r hr, hab ▸ hstep.2⟩, hrest⟩

/-- Main chain induction for the crawler: under the query-filter bound, the
trace of commits (prefixed by the initial cursor's virtual commit) is a
`pageStep` chain. -/
theorem ingestTrace_chain (fetch : Option String → List WdqsBinding) (pageSize : Nat)
    (hfilter : ∀ (c : String) (b : WdqsBinding), b ∈ fetch (some c) →
      ∀ q, b.gameQid = some q → qidLt c q = true) :
    ∀ (fuel : Nat) (c0 : Option String),
      List.Chain' pageStep (initCommit c0 ++ ingestTrace fetch pageSize fuel c0) := by
  intro fuel
  induction fuel with
  | zero =>
    intro c0
    cases c0 with
    | none => exact List.chain'_nil
    | some c => exact List.chain'_singleton _
  | succ fuel ih =>
    intro c0
    rw [ingestTrace_succ]
    cases hl : (parseRosterRows (fetch c0)).getLast? with
    | none =>
      cases c0 with
      | none => exact List.chain'_nil
      | some c => exact List.chain'_singleton _
    | some lastRow =>
      have hbound : ∀ c0c, c0 = some c0c →
          ∀ r ∈ parseRosterRows (fetch c0), qidLt c0c r.qid = true := by
        intro c0c hc r hr
        obtain ⟨b, hb, hbq⟩ := parseRosterRows_from_binding hr
        subst hc
        exact hfilter c0c b hb r.qid hbq
      have hlastmem : lastRow ∈ parseRosterRows (fetch c0) :=
        List.mem_of_mem_getLast? hl
      have htail : List.Chain'
          pageStep (⟨parseRosterRows (fetch c0), lastRow.qid⟩ ::
            (if (parseRosterRows (fetch c0)).length < pageSize then []
             else ingestTrace fetch pageSize fuel (some lastRow.qid))) := by
        by_cases hshort : (parseRosterRows (fetch c0)).length < pageSize
        · rw [if_pos hshort]
          exact List.chain'_singleton _
        · rw [if_neg hshort]
          have hstep := ih (some lastRow.qid)
          simp only [initCommit, List.singleton_append] at hstep
          exact chain_cons_cursor
            (a := ⟨[], lastRow.qid⟩)
            (b := ⟨parseRosterRows (fetch c0), lastRow.qid⟩) rfl hstep
      cases c0 with
      | none => exact htail
      | some c =>
        refine List.chain'_cons.2 ⟨⟨fun r hr => hbound c rfl r hr, ?_⟩, htail⟩
        exact hbound c rfl lastRow hlastmem

/-- Every committed cursor is the greatest identifier of its (nonempty)
page. -/
theorem ingestTrace_greatest (fetch : Option String → List WdqsBinding)
    (pageSize : Nat) :
    ∀ (fuel : Nat) (c0 : Option String),
      ∀ pc ∈ ingestTrace fetch pageSize fuel c0,
        pc.cursor ∈ pc.rows.map (·.qid) ∧
        ∀ r ∈ pc.rows, charListLe r.qid.data pc.cursor.data = true := by
  intro fuel
  induction fuel with
  | zero => intro c0 pc hpc; cases hpc
  | succ fuel ih =>
    intro c0 pc hpc
    rw [ingestTrace_succ] at hpc
    cases hl : (parseRosterRows (fetch c0)).getLast? with
    | none => rw [hl] at hpc; cases hpc
    | some lastRow =>
      rw [hl] at hpc
      rcases List.mem_cons.1 hpc with rfl | hpc'
      · constructor
        · exact List.mem_map.2 ⟨lastRow, List.mem_of_mem_getLast? hl, rfl⟩
        · intro r hr
          exact sorted_last_greatest (parseRosterRows_sorted _) hl r hr
      · by_cases hshort : (parseRosterRows (fetch c0)).length < pageSize
        · rw [if_pos hshort] at hpc'; cases hpc'
        · rw [if_neg hshort] at hpc'
          exact ih (some lastRow.qid) pc hpc'

/-- C4: under the query filter bound (rows of a page fetched with cursor `c`
all have identifiers strictly above `c`), the committed cursor sequence is
strictly increasing in the lexical identifier order starting from the
initial cursor; every identifier of a page is strictly above the cursor
committed before it; each committed cursor is the greatest identifier of
its page; and a null cursor builds the query with no cursor filter (start
of the roster). -/
theorem C4_cursor_monotonicity (fetch : Option String → List WdqsBinding)
    (pageSize : Nat)
    (hfilter : ∀ (c : String) (b : WdqsBinding), b ∈ fetch (some c) →
      ∀ q, b.gameQid = some q → qidLt c q = true)
    (fuel : Nat) (c0 : Option String) :
    List.Chain' (fun a b => qidLt a b = true)
      (c0.toList ++ (ingestTrace fetch pageSize fuel c0).map (·.cursor)) ∧
    List.Chain' (fun p1 p2 => ∀ r ∈ p2.rows, qidLt p1.cursor r.qid = true)
      (initCommit c0 ++ ingestTrace fetch pageSize fuel c0) ∧
    (∀ pc ∈ ingestTrace fetch pageSize fuel c0,
      pc.cursor ∈ pc.rows.map (·.qid) ∧
      ∀ r ∈ pc.rows, charListLe r.qid.data pc.cursor.data = true) ∧
    cursorFilterClause none = "" := by
  have hchain := ingestTrace_chain fetch pageSize hfilter fuel c0
  refine ⟨?_, ?_, ingestTrace_greatest fetch pageSize fuel c0, rfl⟩
  · have hmap : (initCommit c0 ++ ingestTrace fetch pageSize fuel c0).map (·.cursor) =
        c0.toList ++ (ingestTrace fetch pageSize fuel c0).map (·.cursor) := by
      cases c0 <;> simp [initCommit]
    rw [← hmap]
    rw [List.chain'_map]
    exact hchain.imp (fun a b hab => hab.2)
  · exact hchain.imp (fun a b hab => hab.1)

/-- A concrete two-page roster: the first (full) page has `Q1` and `Q3`, the
follow-up query from cursor `Q3` is empty. -/
def fetchC4 : Option String → List WdqsBinding
  | none => [⟨some "Q3", some "Alpha"⟩, ⟨some "Q1", some "Beta"⟩]
  | some _ => []

/-- Witness for C4 at the concrete roster (the filter hypothesis is vacuous
because every cursor-bounded page is empty). -/
theorem C4_cursor_monotonicity_witness :
    List.Chain' (fun a b => qidLt a b = true)
      ((none : Option String).toList ++ (ingestTrace fetchC4 2 3 none).map (·.cursor)) ∧
    List.Chain' (fun p1 p2 => ∀ r ∈ p2.rows, qidLt p1.cursor r.qid = true)
      (initCommit none ++ ingestTrace fetchC4 2 3 none) ∧
    (∀ pc ∈ ingestTrace fetchC4 2 3 none,
      pc.cursor ∈ pc.rows.map (·.qid) ∧
      ∀ r ∈ pc.rows, charListLe r.qid.data pc.cursor.data = true) ∧
    cursorFilterClause none = "" :=
  C4_cursor_monotonicity fetchC4 2 (by intro c b hb; cases hb) 3 none

/-! ## Claim C1: idempotent re-run

Proof layer.  `gameKey` projects a candidate to the data the row-producing
components of `parseBatch` read (qid and claims); the second run's candidate
list agrees with the first run's under this projection, so all derived rows
agree, and the per-game scalar patches of the second run are empty. -/

def gameKey (g : CandidateGame) : String × Json := (g.qid, g.claimsJson)

theorem perGameRows_eq_key {Row : Type} (games : List CandidateGame)
    (f : String → Option Json → List Row) :
    perGameRows games f =
      (games.map gameKey).flatMap fun p =>
        match asClaimsObject p.2 with
        | none => []
        | some claims => f p.1 (some claims) := by
  unfold perGameRows claimsOf gameKey
  induction games with
  | nil => rfl
  | cons g gs ih => simp only [List.map_cons, List.flatMap_cons, ih]

theorem perGameRows_congr {Row : Type} {games1 games2 : List CandidateGame}
    (h : games1.map gameKey = games2.map gameKey)
    (f : String → Option Json → List Row) :
    perGameRows games1 f = perGameRows games2 f := by
  rw [perGameRows_eq_key, perGameRows_eq_key, h]

/-- All row components of `parseBatch` (everything except `scalarUpdates`)
depend only on each game's qid and claims document. -/
theorem parseBatch_rows_congr {games1 games2 : List CandidateGame}
    (h : games1.map gameKey = games2.map gameKey)
    (entries : List PropertyRegistryEntry) :
    (parseBatch games1 entries).tagsToCreate = (parseBatch games2 entries).tagsToCreate ∧
    (parseBatch games1 entries).companiesToCreate = (parseBatch games2 entries).companiesToCreate ∧
    (parseBatch games1 entries).gamePlatformRows = (parseBatch games2 entries).gamePlatformRows ∧
    (parseBatch games1 entries).gameTagRows = (parseBatch games2 entries).gameTagRows ∧
    (parseBatch games1 entries).gameCompanyRows = (parseBatch games2 entries).gameCompanyRows ∧
    (parseBatch games1 entries).gameRelationRows = (parseBatch games2 entries).gameRelationRows ∧
    (parseBatch games1 entries).releaseDateRows = (parseBatch games2 entries).releaseDateRows ∧
    (parseBatch games1 entries).websiteRows = (parseBatch games2 entries).websiteRows ∧
    (parseBatch games1 entries).externalGameRows = (parseBatch games2 entries).externalGameRows ∧
    (parseBatch games1 entries).imageRows = (parseBatch games2 entries).imageRows ∧
    (parseBatch games1 entries).videoRows = (parseBatch games2 entries).videoRows ∧
    (parseBatch games1 entries).ageRatingRows = (parseBatch games2 entries).ageRatingRows := by
  refine ⟨?_, ?_, ?_, ?_, ?_, ?_, ?_, ?_, ?_, ?_, ?_, ?_⟩ <;>
    · simp only [parseBatch]
      rw [show perGameRows games1 = perGameRows games2 from
        funext fun f => perGameRows_congr h f]

/-- The effect of `game.update` on the candidate projection. -/
def candPatch (c : CandidateGame) (patch : GamePatch) : CandidateGame :=
  { c with
    releaseYear :=
      match patch.releaseYear with
      | some y => some y
      | none => c.releaseYear
    firstReleaseAt :=
      match patch.firstReleaseAt with
      | some d => some d
      | none => c.firstReleaseAt
    imageCommons :=
      match patch.imageCommons with
      | some s => some s
      | none => c.imageCommons
    imageUrl :=
      match patch.imageUrl with
      | some s => some s
      | none => c.imageUrl }

/-- All scalar updates applied to one candidate, in order. -/
def applyAllUpdates (us : List ScalarUpdate) (c : CandidateGame) : CandidateGame :=
  us.foldl (fun c u => if c.qid = u.qid then candPatch c u.data else c) c

theorem filter_map_pres {α : Type} (m : α → α) (p : α → Bool)
    (h : ∀ g, p (m g) = p g) :
    ∀ gs : List α, (gs.map m).filter p = (gs.filter p).map m := by
  intro gs
  induction gs with
  | nil => rfl
  | cons g gs ih =>
    simp only [List.map_cons, List.filter_cons, h g]
    cases hp : p g <;> simp [ih]

/-- `toCandidate` commutes with one patch application. -/
theorem toCandidate_applyGamePatch (g : GameRecord) (d : GamePatch) (now : Int) :
    toCandidate (applyGamePatch g d now) = candPatch (toCandidate g) d := rfl

theorem applyGamePatch_qid (g : GameRecord) (d : GamePatch) (now : Int) :
    (applyGamePatch g d now).qid = g.qid := rfl

theorem candPatch_gameKey (c : CandidateGame) (d : GamePatch) :
    gameKey (candPatch c d) = gameKey c := rfl

/-- Scalar updates commute with a filter that only reads qid and claims. -/
theorem applyScalarUpdates_filter_comm (now : Int) (p : GameRecord → Bool)
    (hp : ∀ g d, p (applyGamePatch g d now) = p g) :
    ∀ (us : List ScalarUpdate) (gs : List GameRecord),
      (applyScalarUpdates now us gs).filter p =
        applyScalarUpdates now us (gs.filter p) := by
  intro us
  induction us with
  | nil => intro gs; rfl
  | cons u us ih =>
    intro gs
    show (applyScalarUpdates now us _).filter p = _
    rw [ih]
    have : (gs.map fun g => if g.qid = u.qid then applyGamePatch g u.data now else g).filter p =
        ((gs.filter p).map fun g => if g.qid = u.qid then applyGamePatch g u.data now else g) := by
      apply filter_map_pres
      intro g
      by_cases hg : g.qid = u.qid
      · rw [if_pos hg, hp]
      · rw [if_neg hg]
    rw [this]
    rfl

/-- Mapping records to candidates commutes with the scalar updates. -/
theorem map_toCandidate_applyScalarUpdates (now : Int) :
    ∀ (us : List ScalarUpdate) (gs : List GameRecord),
      (applyScalarUpdates now us gs).map toCandidate =
        (gs.map toCandidate).map (applyAllUpdates us) := by
  intro us
  induction us with
  | nil => intro gs; simp [applyScalarUpdates, applyAllUpdates]
  | cons u us ih =>
    intro gs
    show (applyScalarUpdates now us _).map toCandidate = _
    rw [ih]
    rw [List.map_map, List.map_map, List.map_map]
    apply List.map_congr_left
    intro g _
    show applyAllUpdates us (toCandidate (if g.qid = u.qid then applyGamePatch g u.data now else g)) =
      applyAllUpdates (u :: us) (toCandidate g)
    have : toCandidate (if g.qid = u.qid then applyGamePatch g u.data now else g) =
        if (toCandidate g).qid = u.qid then candPatch (toCandidate g) u.data
        else toCandidate g := by
      by_cases hg : g.qid = u.qid
      · rw [if_pos hg, if_pos (show (toCandidate g).qid = u.qid from hg),
          toCandidate_applyGamePatch]
      · rw [if_neg hg, if_neg (show ¬(toCandidate g).qid = u.qid from hg)]
    rw [this]
    rfl

theorem applyAllUpdates_gameKey (us : List ScalarUpdate) :
    ∀ c, gameKey (applyAllUpdates us c) = gameKey c := by
  induction us with
  | nil => intro c; rfl
  | cons u us ih =>
    intro c
    show gameKey (applyAllUpdates us _) = _
    rw [ih]
    show gameKey (if c.qid = u.qid then candPatch c u.data else c) = gameKey c
    by_cases hc : c.qid = u.qid
    · rw [if_pos hc, candPatch_gameKey]
    · rw [if_neg hc]

theorem applyAllUpdates_qid (us : List ScalarUpdate) (c : CandidateGame) :
    (applyAllUpdates us c).qid = c.qid :=
  congrArg Prod.fst (applyAllUpdates_gameKey us c)

/-! ### Characterization of the per-entry scalar patches -/

theorem applyReleaseDatePatch_releaseYear (g : CandidateGame) (cl : Option Json)
    (p : GamePatch) (e : PropertyRegistryEntry) :
    (applyReleaseDatePatch g cl p e).releaseYear =
      match pickBestValue
          ((extractTimeValues (getPropertyStatements cl e.propertyId)).map
            fun v => ⟨v, v.rankScore⟩) with
      | none => p.releaseYear
      | some best =>
        if shouldApplyScalarUpdate (g.releaseYear.map .num) (.num best.value.year)
            best.rankScore = true
        then some best.value.year else p.releaseYear := by
  unfold applyReleaseDatePatch
  dsimp only
  cases hb : pickBestValue
      ((extractTimeValues (getPropertyStatements cl e.propertyId)).map
        fun v => ⟨v, v.rankScore⟩) with
  | none => rfl
  | some best => dsimp only; split_ifs <;> rfl

theorem applyReleaseDatePatch_firstReleaseAt (g : CandidateGame) (cl : Option Json)
    (p : GamePatch) (e : PropertyRegistryEntry) :
    (applyReleaseDatePatch g cl p e).firstReleaseAt =
      match pickBestValue
          ((extractTimeValues (getPropertyStatements cl e.propertyId)).map
            fun v => ⟨v, v.rankScore⟩) with
      | none => p.firstReleaseAt
      | some best =>
        if shouldApplyScalarUpdate (g.firstReleaseAt.map .date)
            (.date (toUtcDate best.value.year best.value.month best.value.day))
            best.rankScore = true
        then some (toUtcDate best.value.year best.value.month best.value.day)
        else p.firstReleaseAt := by
  unfold applyReleaseDatePatch
  dsimp only
  cases hb : pickBestValue
      ((extractTimeValues (getPropertyStatements cl e.propertyId)).map
        fun v => ⟨v, v.rankScore⟩) with
  | none => rfl
  | some best => dsimp only; split_ifs <;> rfl

theorem applyReleaseDatePatch_imageCommons (g : CandidateGame) (cl : Option Json)
    (p : GamePatch) (e : PropertyRegistryEntry) :
    (applyReleaseDatePatch g cl p e).imageCommons = p.imageCommons := by
  unfold applyReleaseDatePatch
  dsimp only
  cases pickBestValue
      ((extractTimeValues (getPropertyStatements cl e.propertyId)).map
        fun v => ⟨v, v.rankScore⟩) with
  | none => rfl
  | some best => dsimp only; split_ifs <;> rfl

theorem applyReleaseDatePatch_imageUrl (g : CandidateGame) (cl : Option Json)
    (p : GamePatch) (e : PropertyRegistryEntry) :
    (applyReleaseDatePatch g cl p e).imageUrl = p.imageUrl := by
  unfold applyReleaseDatePatch
  dsimp only
  cases pickBestValue
      ((extractTimeValues (getPropertyStatements cl e.propertyId)).map
        fun v => ⟨v, v.rankScore⟩) with
  | none => rfl
  | some best => dsimp only; split_ifs <;> rfl

theorem applyImagePatch_imageCommons (g : CandidateGame) (cl : Option Json)
    (p : GamePatch) (e : PropertyRegistryEntry) :
    (applyImagePatch g cl p e).imageCommons =
      match pickBestValue (extractStringValues (getPropertyStatements cl e.propertyId)) with
      | none => p.imageCommons
      | some bestImage =>
        if shouldApplyScalarUpdate (g.imageCommons.map .str) (.str bestImage.value)
            bestImage.rankScore = true
        then some bestImage.value else p.imageCommons := by
  unfold applyImagePatch
  dsimp only
  cases pickBestValue (extractStringValues (getPropertyStatements cl e.propertyId)) with
  | none => rfl
  | some bestImage => dsimp only; split_ifs <;> rfl

theorem applyImagePatch_imageUrl (g : CandidateGame) (cl : Option Json)
    (p : GamePatch) (e : PropertyRegistryEntry) :
    (applyImagePatch g cl p e).imageUrl =
      match pickBestValue (extractStringValues (getPropertyStatements cl e.propertyId)) with
      | none => p.imageUrl
      | some bestImage =>
        if shouldApplyScalarUpdate (g.imageCommons.map .str) (.str bestImage.value)
            bestImage.rankScore = true
        then some (commonsFileUrl bestImage.value) else p.imageUrl := by
  unfold applyImagePatch
  dsimp only
  cases pickBestValue (extractStringValues (getPropertyStatements cl e.propertyId)) with
  | none => rfl
  | some bestImage => dsimp only; split_ifs <;> rfl

theorem applyImagePatch_releaseYear (g : CandidateGame) (cl : Option Json)
    (p : GamePatch) (e : PropertyRegistryEntry) :
    (applyImagePatch g cl p e).releaseYear = p.releaseYear := by
  unfold applyImagePatch
  dsimp only
  cases pickBestValue (extractStringValues (getPropertyStatements cl e.propertyId)) with
  | none => rfl
  | some bestImage => dsimp only; split_ifs <;> rfl

theorem applyImagePatch_firstReleaseAt (g : CandidateGame) (cl : Option Json)
    (p : GamePatch) (e : PropertyRegistryEntry) :
    (applyImagePatch g cl p e).firstReleaseAt = p.firstReleaseAt := by
  unfold applyImagePatch
  dsimp only
  cases pickBestValue (extractStringValues (getPropertyStatements cl e.propertyId)) with
  | none => rfl
  | some bestImage => dsimp only; split_ifs <;> rfl

theorem imgFold_releaseYear (g : CandidateGame) (cl : Option Json) :
    ∀ (imgE : List PropertyRegistryEntry) (p : GamePatch),
      (imgE.foldl (applyImagePatch g cl) p).releaseYear = p.releaseYear := by
  intro imgE
  induction imgE with
  | nil => intro p; rfl
  | cons e imgE ih =>
    intro p
    simp only [List.foldl_cons]
    rw [ih, applyImagePatch_releaseYear]

theorem imgFold_firstReleaseAt (g : CandidateGame) (cl : Option Json) :
    ∀ (imgE : List PropertyRegistryEntry) (p : GamePatch),
      (imgE.foldl (applyImagePatch g cl) p).firstReleaseAt = p.firstReleaseAt := by
  intro imgE
  induction imgE with
  | nil => intro p; rfl
  | cons e imgE ih =>
    intro p
    simp only [List.foldl_cons]
    rw [ih, applyImagePatch_firstReleaseAt]

theorem relFold_imageCommons (g : CandidateGame) (cl : Option Json) :
    ∀ (relE : List PropertyRegistryEntry) (p : GamePatch),
      (relE.foldl (applyReleaseDatePatch g cl) p).imageCommons = p.imageCommons := by
  intro relE
  induction relE with
  | nil => intro p; rfl
  | cons e relE ih =>
    intro p
    simp only [List.foldl_cons]
    rw [ih, applyReleaseDatePatch_imageCommons]

theorem relFold_imageUrl (g : CandidateGame) (cl : Option Json) :
    ∀ (relE : List PropertyRegistryEntry) (p : GamePatch),
      (relE.foldl (applyReleaseDatePatch g cl) p).imageUrl = p.imageUrl := by
  intro relE
  induction relE with
  | nil => intro p; rfl
  | cons e relE ih =>
    intro p
    simp only [List.foldl_cons]
    rw [ih, applyReleaseDatePatch_imageUrl]

/-- Applying the gate to a value already updated by the same gate fails. -/
theorem shouldApply_twice (existing : Option ScalarValue) (next : ScalarValue)
    (rs : Nat) :
    shouldApplyScalarUpdate
      (if shouldApplyScalarUpdate existing next rs = true then some next else existing)
      next rs = false := by
  by_cases h : shouldApplyScalarUpdate existing next rs = true
  · rw [if_pos h]
    simp [shouldApplyScalarUpdate]
  · rw [if_neg h]
    simpa using h

theorem length_le_one_cases {α : Type} {l : List α} (h : l.length ≤ 1) :
    l = [] ∨ ∃ a, l = [a] := by
  cases l with
  | nil => exact Or.inl rfl
  | cons a t =>
    cases t with
    | nil => exact Or.inr ⟨a, rfl⟩
    | cons b t' => simp at h

theorem scalarPatchFor_releaseYear (x : CandidateGame) (cl : Option Json)
    (relE imgE : List PropertyRegistryEntry) :
    (scalarPatchFor x cl relE imgE).releaseYear =
      (relE.foldl (applyReleaseDatePatch x cl) {}).releaseYear := by
  unfold scalarPatchFor
  exact imgFold_releaseYear x cl imgE _

theorem scalarPatchFor_firstReleaseAt (x : CandidateGame) (cl : Option Json)
    (relE imgE : List PropertyRegistryEntry) :
    (scalarPatchFor x cl relE imgE).firstReleaseAt =
      (relE.foldl (applyReleaseDatePatch x cl) {}).firstReleaseAt := by
  unfold scalarPatchFor
  exact imgFold_firstReleaseAt x cl imgE _

theorem patch2_releaseYear_none (relE imgE : List PropertyRegistryEntry)
    (hrel : relE = [] ∨ ∃ e, relE = [e]) (c : CandidateGame) (cl : Option Json) :
    (scalarPatchFor (candPatch c (scalarPatchFor c cl relE imgE)) cl relE imgE).releaseYear =
      none := by
  rcases hrel with rfl | ⟨e, rfl⟩
  · rw [scalarPatchFor_releaseYear]; rfl
  · rw [scalarPatchFor_releaseYear]
    simp only [List.foldl_cons, List.foldl_nil]
    rw [applyReleaseDatePatch_releaseYear]
    cases hb : pickBestValue
        ((extractTimeValues (getPropertyStatements cl e.propertyId)).map
          fun v => ⟨v, v.rankScore⟩) with
    | none => rfl
    | some best =>
      dsimp only
      have hp1 : (scalarPatchFor c cl [e] imgE).releaseYear =
          (if shouldApplyScalarUpdate (c.releaseYear.map .num) (.num best.value.year)
              best.rankScore = true
           then some best.value.year else none) := by
        rw [scalarPatchFor_releaseYear]
        simp only [List.foldl_cons, List.foldl_nil]
        rw [applyReleaseDatePatch_releaseYear, hb]
      have hc' : (candPatch c (scalarPatchFor c cl [e] imgE)).releaseYear.map
            ScalarValue.num =
          (if shouldApplyScalarUpdate (c.releaseYear.map .num) (.num best.value.year)
              best.rankScore = true
           then some (.num best.value.year) else c.releaseYear.map .num) := by
        show (match (scalarPatchFor c cl [e] imgE).releaseYear with
          | some y => some y
          | none => c.releaseYear).map ScalarValue.num = _
        rw [hp1]
        by_cases hg : shouldApplyScalarUpdate (c.releaseYear.map .num)
            (.num best.value.year) best.rankScore = true
        · rw [if_pos hg, if_pos hg]; rfl
        · rw [if_neg hg, if_neg hg]
      rw [hc', shouldApply_twice]
      rfl

theorem patch2_firstReleaseAt_none (relE imgE : List PropertyRegistryEntry)
    (hrel : relE = [] ∨ ∃ e, relE = [e]) (c : CandidateGame) (cl : Option Json) :
    (scalarPatchFor (candPatch c (scalarPatchFor c cl relE imgE)) cl relE
        imgE).firstReleaseAt = none := by
  rcases hrel with rfl | ⟨e, rfl⟩
  · rw [scalarPatchFor_firstReleaseAt]; rfl
  · rw [scalarPatchFor_firstReleaseAt]
    simp only [List.foldl_cons, List.foldl_nil]
    rw [applyReleaseDatePatch_firstReleaseAt]
    cases hb : pickBestValue
        ((extractTimeValues (getPropertyStatements cl e.propertyId)).map
          fun v => ⟨v, v.rankScore⟩) with
    | none => rfl
    | some best =>
      dsimp only
      have hp1 : (scalarPatchFor c cl [e] imgE).firstReleaseAt =
          (if shouldApplyScalarUpdate (c.firstReleaseAt.map .date)
              (.date (toUtcDate best.value.year best.value.month best.value.day))
              best.rankScore = true
           then some (toUtcDate best.value.year best.value.month best.value.day)
           else none) := by
        rw [scalarPatchFor_firstReleaseAt]
        simp only [List.foldl_cons, List.foldl_nil]
        rw [applyReleaseDatePatch_firstReleaseAt, hb]
      have hc' : (candPatch c (scalarPatchFor c cl [e] imgE)).firstReleaseAt.map
            ScalarValue.date =
          (if shouldApplyScalarUpdate (c.firstReleaseAt.map .date)
              (.date (toUtcDate best.value.year best.value.month best.value.day))
              best.rankScore = true
           then some (.date (toUtcDate best.value.year best.value.month best.value.day))
           else c.firstReleaseAt.map .date) := by
        show (match (scalarPatchFor c cl [e] imgE).firstReleaseAt with
          | some y => some y
          | none => c.firstReleaseAt).map ScalarValue.date = _
        rw [hp1]
        by_cases hg : shouldApplyScalarUpdate (c.firstReleaseAt.map .date)
            (.date (toUtcDate best.value.year best.value.month best.value.day))
            best.rankScore = true
        · rw [if_pos hg, if_pos hg]; rfl
        · rw [if_neg hg, if_neg hg]
      rw [hc', shouldApply_twice]
      rfl

theorem scalarPatchFor_imageCommons_nil (x : CandidateGame) (cl : Option Json)
    (relE : List PropertyRegistryEntry) :
    (scalarPatchFor x cl relE []).imageCommons = none := by
  unfold scalarPatchFor
  rw [List.foldl_nil, relFold_imageCommons]

theorem scalarPatchFor_imageUrl_nil (x : CandidateGame) (cl : Option Json)
    (relE : List PropertyRegistryEntry) :
    (scalarPatchFor x cl relE []).imageUrl = none := by
  unfold scalarPatchFor
  rw [List.foldl_nil, relFold_imageUrl]

theorem scalarPatchFor_imageCommons_single (x : CandidateGame) (cl : Option Json)
    (relE : List PropertyRegistryEntry) (e : PropertyRegistryEntry) :
    (scalarPatchFor x cl relE [e]).imageCommons =
      match pickBestValue (extractStringValues (getPropertyStatements cl e.propertyId)) with
      | none => none
      | some bestImage =>
        if shouldApplyScalarUpdate (x.imageCommons.map .str) (.str bestImage.value)
            bestImage.rankScore = true
        then some bestImage.value else none := by
  unfold scalarPatchFor
  simp only [List.foldl_cons, List.foldl_nil]
  rw [applyImagePatch_imageCommons]
  cases hb : pickBestValue (extractStringValues (getPropertyStatements cl e.propertyId)) with
  | none => rw [relFold_imageCommons]
  | some bestImage =>
    dsimp only
    rw [relFold_imageCommons]

theorem scalarPatchFor_imageUrl_single (x : CandidateGame) (cl : Option Json)
    (relE : List PropertyRegistryEntry) (e : PropertyRegistryEntry) :
    (scalarPatchFor x cl relE [e]).imageUrl =
      match pickBestValue (extractStringValues (getPropertyStatements cl e.propertyId)) with
      | none => none
      | some bestImage =>
        if shouldApplyScalarUpdate (x.imageCommons.map .str) (.str bestImage.value)
            bestImage.rankScore = true
        then some (commonsFileUrl bestImage.value) else none := by
  unfold scalarPatchFor
  simp only [List.foldl_cons, List.foldl_nil]
  rw [applyImagePatch_imageUrl]
  cases hb : pickBestValue (extractStringValues (getPropertyStatements cl e.propertyId)) with
  | none => rw [relFold_imageUrl]
  | some bestImage =>
    dsimp only
    rw [relFold_imageUrl]

theorem patch2_imageCommons_none (relE imgE : List PropertyRegistryEntry)
    (himg : imgE = [] ∨ ∃ e, imgE = [e]) (c : CandidateGame) (cl : Option Json) :
    (scalarPatchFor (candPatch c (scalarPatchFor c cl relE imgE)) cl relE
        imgE).imageCommons = none := by
  rcases himg with rfl | ⟨e, rfl⟩
  · exact scalarPatchFor_imageCommons_nil _ cl relE
  · rw [scalarPatchFor_imageCommons_single]
    cases hb : pickBestValue (extractStringValues (getPropertyStatements cl e.propertyId)) with
    | none => rfl
    | some bestImage =>
      dsimp only
      have hp1 : (scalarPatchFor c cl relE [e]).imageCommons =
          (if shouldApplyScalarUpdate (c.imageCommons.map .str) (.str bestImage.value)
              bestImage.rankScore = true
           then some bestImage.value else none) := by
        rw [scalarPatchFor_imageCommons_single, hb]
      have hc' : (candPatch c (scalarPatchFor c cl relE [e])).imageCommons.map
            ScalarValue.str =
          (if shouldApplyScalarUpdate (c.imageCommons.map .str) (.str bestImage.value)
              bestImage.rankScore = true
           then some (.str bestImage.value) else c.imageCommons.map .str) := by
        show (match (scalarPatchFor c cl relE [e]).imageCommons with
          | some y => some y
          | none => c.imageCommons).map ScalarValue.str = _
        rw [hp1]
        by_cases hg : shouldApplyScalarUpdate (c.imageCommons.map .str)
            (.str bestImage.value) bestImage.rankScore = true
        · rw [if_pos hg, if_pos hg]; rfl
        · rw [if_neg hg, if_neg hg]
      rw [hc', shouldApply_twice]
      rfl

theorem patch2_imageUrl_none (relE imgE : List PropertyRegistryEntry)
    (himg : imgE = [] ∨ ∃ e, imgE = [e]) (c : CandidateGame) (cl : Option Json) :
    (scalarPatchFor (candPatch c (scalarPatchFor c cl relE imgE)) cl relE
        imgE).imageUrl = none := by
  rcases himg with rfl | ⟨e, rfl⟩
  · exact scalarPatchFor_imageUrl_nil _ cl relE
  · rw [scalarPatchFor_imageUrl_single]
    cases hb : pickBestValue (extractStringValues (getPropertyStatements cl e.propertyId)) with
    | none => rfl
    | some bestImage =>
      dsimp only
      have hp1 : (scalarPatchFor c cl relE [e]).imageCommons =
          (if shouldApplyScalarUpdate (c.imageCommons.map .str) (.str bestImage.value)
              bestImage.rankScore = true
           then some bestImage.value else none) := by
        rw [scalarPatchFor_imageCommons_single, hb]
      have hc' : (candPatch c (scalarPatchFor c cl relE [e])).imageCommons.map
            ScalarValue.str =
          (if shouldApplyScalarUpdate (c.imageCommons.map .str) (.str bestImage.value)
              bestImage.rankScore = true
           then some (.str bestImage.value) else c.imageCommons.map .str) := by
        show (match (scalarPatchFor c cl relE [e]).imageCommons with
          | some y => some y
          | none => c.imageCommons).map ScalarValue.str = _
        rw [hp1]
        by_cases hg : shouldApplyScalarUpdate (c.imageCommons.map .str)
            (.str bestImage.value) bestImage.rankScore = true
        · rw [if_pos hg, if_pos hg]; rfl
        · rw [if_neg hg, if_neg hg]
      rw [hc', shouldApply_twice]
      rfl

/-- The second run's scalar patch for any game is empty (all four fields
unset), given at most one release-date entry and at most one image entry. -/
theorem secondPatch_isEmpty (relE imgE : List PropertyRegistryEntry)
    (hrel : relE.length ≤ 1) (himg : imgE.length ≤ 1)
    (c : CandidateGame) (cl : Option Json) :
    (scalarPatchFor (candPatch c (scalarPatchFor c cl relE imgE)) cl relE
        imgE).isEmpty = true := by
  unfold GamePatch.isEmpty
  rw [patch2_releaseYear_none relE imgE (length_le_one_cases hrel) c cl,
    patch2_firstReleaseAt_none relE imgE (length_le_one_cases hrel) c cl,
    patch2_imageCommons_none relE imgE (length_le_one_cases himg) c cl,
    patch2_imageUrl_none relE imgE (length_le_one_cases himg) c cl]
  rfl

/-! ### The scalar update produced for one game -/

/-- The `scalarUpdates` entry `parseBatch` produces for one game. -/
def mkScalarUpdate (relE imgE : List PropertyRegistryEntry)
    (game : CandidateGame) : Option ScalarUpdate :=
  match claimsOf game with
  | none => none
  | some claims =>
    let patch := scalarPatchFor game (some claims) relE imgE
    if patch.isEmpty then none else some { qid := game.qid, data := patch }

theorem parseBatch_scalarUpdates (games : List CandidateGame)
    (entries : List PropertyRegistryEntry) :
    (parseBatch games entries).scalarUpdates =
      games.filterMap
        (mkScalarUpdate (entries.filter (·.target = "game.releaseDate"))
          (entries.filter (·.target = "game.image"))) := rfl

theorem mkScalarUpdate_qid {relE imgE : List PropertyRegistryEntry}
    {g : CandidateGame} {u : ScalarUpdate}
    (h : mkScalarUpdate relE imgE g = some u) : u.qid = g.qid := by
  unfold mkScalarUpdate at h
  cases hc : claimsOf g with
  | none => rw [hc] at h; cases h
  | some claims =>
    rw [hc] at h
    dsimp only at h
    by_cases hemp : (scalarPatchFor g (some claims) relE imgE).isEmpty = true
    · rw [if_pos hemp] at h; cases h
    · rw [if_neg hemp] at h
      cases h
      rfl

theorem claimsOf_candPatch (c : CandidateGame) (d : GamePatch) :
    claimsOf (candPatch c d) = claimsOf c := rfl

theorem candPatch_qid (c : CandidateGame) (d : GamePatch) :
    (candPatch c d).qid = c.qid := rfl

theorem applyAllUpdates_append (us vs : List ScalarUpdate) (c : CandidateGame) :
    applyAllUpdates (us ++ vs) c = applyAllUpdates vs (applyAllUpdates us c) := by
  unfold applyAllUpdates
  rw [List.foldl_append]

theorem applyAllUpdates_of_ne :
    ∀ (us : List ScalarUpdate) (c : CandidateGame),
      (∀ u ∈ us, u.qid ≠ c.qid) → applyAllUpdates us c = c := by
  intro us
  induction us with
  | nil => intro c _; rfl
  | cons u us ih =>
    intro c h
    show applyAllUpdates us (if c.qid = u.qid then candPatch c u.data else c) = c
    rw [if_neg fun hc => h u (List.mem_cons_self _ _) hc.symm]
    exact ih c fun v hv => h v (List.mem_cons_of_mem _ hv)

theorem mem_filterMap_mkScalarUpdate_qid {relE imgE : List PropertyRegistryEntry}
    {l : List CandidateGame} {u : ScalarUpdate}
    (h : u ∈ l.filterMap (mkScalarUpdate relE imgE)) : u.qid ∈ l.map (·.qid) := by
  rcases List.mem_filterMap.1 h with ⟨g, hg, hu⟩
  rw [mkScalarUpdate_qid hu]
  exact List.mem_map.2 ⟨g, hg, rfl⟩

/-- With distinct game qids, the scalar-update loop hits each game exactly
once: the net effect on a batch game is its own update, if any. -/
theorem applyAllUpdates_unique (relE imgE : List PropertyRegistryEntry)
    (games : List CandidateGame) (hnd : (games.map (·.qid)).Nodup)
    (g : CandidateGame) (hg : g ∈ games) :
    applyAllUpdates (games.filterMap (mkScalarUpdate relE imgE)) g =
      match mkScalarUpdate relE imgE g with
      | none => g
      | some u => candPatch g u.data := by
  obtain ⟨l, r, rfl⟩ := List.append_of_mem hg
  rw [List.map_append, List.map_cons] at hnd
  rw [List.nodup_append] at hnd
  obtain ⟨-, hndr, hdisj⟩ := hnd
  have hgl : g.qid ∉ l.map (·.qid) := fun hmem =>
    hdisj hmem (List.mem_cons_self _ _)
  have hgr : g.qid ∉ r.map (·.qid) := (List.nodup_cons.1 hndr).1
  rw [List.filterMap_append, applyAllUpdates_append, List.filterMap_cons]
  have h1 : applyAllUpdates (l.filterMap (mkScalarUpdate relE imgE)) g = g :=
    applyAllUpdates_of_ne _ _ fun u hu he =>
      hgl (he ▸ mem_filterMap_mkScalarUpdate_qid hu)
  rw [h1]
  cases hm : mkScalarUpdate relE imgE g with
  | none =>
    dsimp only
    exact applyAllUpdates_of_ne _ _ fun u hu he =>
      hgr (he ▸ mem_filterMap_mkScalarUpdate_qid hu)
  | some u =>
    dsimp only
    show applyAllUpdates (r.filterMap (mkScalarUpdate relE imgE))
      (if g.qid = u.qid then candPatch g u.data else g) = candPatch g u.data
    rw [if_pos (mkScalarUpdate_qid hm).symm]
    exact applyAllUpdates_of_ne _ _ fun v hv he =>
      hgr (by
        rw [candPatch_qid] at he
        exact he ▸ mem_filterMap_mkScalarUpdate_qid hv)

/-- After its own update has been applied, a game's next scalar update is
`none` (given at most one release-date and one image registry entry). -/
theorem second_update_none (relE imgE : List PropertyRegistryEntry)
    (hrel : relE.length ≤ 1) (himg : imgE.length ≤ 1)
    (games : List CandidateGame) (hnd : (games.map (·.qid)).Nodup)
    (g : CandidateGame) (hg : g ∈ games) :
    mkScalarUpdate relE imgE
      (applyAllUpdates (games.filterMap (mkScalarUpdate relE imgE)) g) = none := by
  rw [applyAllUpdates_unique relE imgE games hnd g hg]
  cases hm : mkScalarUpdate relE imgE g with
  | none => exact hm
  | some u =>
    dsimp only
    unfold mkScalarUpdate at hm
    cases hc : claimsOf g with
    | none => rw [hc] at hm; cases hm
    | some claims =>
      rw [hc] at hm
      dsimp only at hm
      by_cases hemp : (scalarPatchFor g (some claims) relE imgE).isEmpty = true
      · rw [if_pos hemp] at hm; cases hm
      · rw [if_neg hemp] at hm
        cases hm
        unfold mkScalarUpdate
        rw [claimsOf_candPatch, hc]
        dsimp only
        rw [if_pos (secondPatch_isEmpty relE imgE hrel himg g (some claims))]

/-! ### Projections of one `runOnce` pass -/

theorem runOnce_platforms (now : Int) (qids : List String)
    (entries : List PropertyRegistryEntry) (S : Store) :
    (runOnce now qids entries S).platforms = S.platforms := rfl

theorem runOnce_games (now : Int) (qids : List String)
    (entries : List PropertyRegistryEntry) (S : Store) :
    (runOnce now qids entries S).games =
      applyScalarUpdates now (parseBatch (readGames S qids) entries).scalarUpdates
        S.games := rfl

/-- Reading the batch back after one pass yields the same games with their
own scalar updates applied. -/
theorem readGames_runOnce (now : Int) (qids : List String)
    (entries : List PropertyRegistryEntry) (S : Store) :
    readGames (runOnce now qids entries S) qids =
      (readGames S qids).map
        (applyAllUpdates (parseBatch (readGames S qids) entries).scalarUpdates) := by
  show ((applyScalarUpdates now (parseBatch (readGames S qids) entries).scalarUpdates
      S.games).filter
        (fun g => qids.contains g.qid && ¬g.claimsJson.isNull)).map toCandidate = _
  rw [applyScalarUpdates_filter_comm now
      (fun g => qids.contains g.qid && ¬g.claimsJson.isNull) (fun g d => rfl),
    map_toCandidate_applyScalarUpdates]
  rfl

theorem gameKey_readGames_runOnce (now : Int) (qids : List String)
    (entries : List PropertyRegistryEntry) (S : Store) :
    (readGames (runOnce now qids entries S) qids).map gameKey =
      (readGames S qids).map gameKey := by
  rw [readGames_runOnce, List.map_map]
  exact List.map_congr_left fun c _ => applyAllUpdates_gameKey _ c

theorem qid_readGames_runOnce (now : Int) (qids : List String)
    (entries : List PropertyRegistryEntry) (S : Store) :
    (readGames (runOnce now qids entries S) qids).map (·.qid) =
      (readGames S qids).map (·.qid) := by
  rw [readGames_runOnce, List.map_map]
  exact List.map_congr_left fun c _ => applyAllUpdates_qid _ c

theorem readGames_qid_nodup (S : Store) (qids : List String)
    (h : (S.games.map (·.qid)).Nodup) :
    ((readGames S qids).map (·.qid)).Nodup := by
  unfold readGames
  rw [List.map_map]
  show ((S.games.filter _).map fun g => g.qid).Nodup
  exact ((List.filter_sublist S.games).map (fun g => g.qid)).nodup h

/-- The second pass produces no scalar updates at all. -/
theorem second_scalarUpdates_nil (entries : List PropertyRegistryEntry)
    (hrel : (entries.filter (·.target = "game.releaseDate")).length ≤ 1)
    (himg : (entries.filter (·.target = "game.image")).length ≤ 1)
    (now1 : Int) (qids : List String) (S : Store)
    (hnodup : (S.games.map (·.qid)).Nodup) :
    (parseBatch (readGames (runOnce now1 qids entries S) qids)
      entries).scalarUpdates = [] := by
  rw [parseBatch_scalarUpdates, readGames_runOnce, parseBatch_scalarUpdates]
  rw [List.filterMap_map]
  apply List.filterMap_eq_nil_iff.2
  intro g hg
  show mkScalarUpdate _ _ (applyAllUpdates _ g) = none
  exact second_update_none _ _ hrel himg (readGames S qids)
    (readGames_qid_nodup S qids hnodup) g hg

/-! ### Store equality and table idempotence -/

theorem storeExt {S T : Store}
    (h1 : S.platforms = T.platforms) (h2 : S.games = T.games)
    (h3 : S.tags = T.tags) (h4 : S.companies = T.companies)
    (h5 : S.gamePlatform = T.gamePlatform) (h6 : S.gameTag = T.gameTag)
    (h7 : S.gameCompany = T.gameCompany) (h8 : S.gameRelation = T.gameRelation)
    (h9 : S.releaseDate = T.releaseDate) (h10 : S.website = T.website)
    (h11 : S.externalGame = T.externalGame) (h12 : S.gameImage = T.gameImage)
    (h13 : S.gameVideo = T.gameVideo) (h14 : S.gameAgeRating = T.gameAgeRating) :
    S = T := by
  cases S
  cases T
  rw [Store.mk.injEq]
  exact ⟨h1, h2, h3, h4, h5, h6, h7, h8, h9, h10, h11, h12, h13, h14⟩

theorem contains_eq_true_of_mem {a : String} {l : List String} (h : a ∈ l) :
    l.contains a = true :=
  List.elem_eq_true_of_mem h

theorem filter_idem {α : Type} (p : α → Bool) (l : List α) :
    (l.filter p).filter p = l.filter p := by
  induction l with
  | nil => rfl
  | cons a t ih =>
    cases h : p a with
    | false => simp [List.filter_cons, h, ih]
    | true => simp [List.filter_cons, h, ih]

/-- Deleting the batch region again and re-inserting the same rows is a
no-op, provided every row belongs to the batch region. -/
theorem delete_insert_idem {Row : Type} (conflict : Row → Row → Bool)
    (delKey : Row → String) (qids : List String) (T D : List Row)
    (hD : ∀ r ∈ D, delKey r ∈ qids) :
    createManySkip conflict
        ((createManySkip conflict (T.filter (fun r => ¬qids.contains (delKey r)))
            D).filter (fun r => ¬qids.contains (delKey r))) D =
      createManySkip conflict (T.filter (fun r => ¬qids.contains (delKey r))) D := by
  have hdata : ∀ r ∈ D, (¬qids.contains (delKey r) : Bool) = false := by
    intro r hr
    rw [contains_eq_true_of_mem (hD r hr)]
    rfl
  rw [filter_createManySkip conflict _ hdata, filter_idem]

/-- After delete-then-insert, the batch region of the table is exactly the
inserted rows, which are pairwise conflict-free. -/
theorem region_pairwise {Row : Type} (conflict : Row → Row → Bool)
    (delKey : Row → String) (qids : List String) (T D : List Row)
    (hD : ∀ r ∈ D, delKey r ∈ qids) :
    ((createManySkip conflict (T.filter (fun r => ¬qids.contains (delKey r)))
        D).filter (fun r => qids.contains (delKey r))).Pairwise
      (fun a b => conflict a b = false) := by
  obtain ⟨extra, heq, hsub, hpw, -⟩ :=
    createManySkip_spec conflict D (T.filter (fun r => ¬qids.contains (delKey r)))
  rw [heq, List.filter_append]
  have h1 : (T.filter (fun r => ¬qids.contains (delKey r))).filter
      (fun r => qids.contains (delKey r)) = [] := by
    apply List.filter_eq_nil_iff.2
    intro r hr
    exact of_decide_eq_true (List.mem_filter.1 hr).2
  have h2 : extra.filter (fun r => qids.contains (delKey r)) = extra :=
    List.filter_eq_self.2 fun a ha =>
      contains_eq_true_of_mem (hD a (hsub a ha))
  rw [h1, h2, List.nil_append]
  exact hpw

/-- Re-inserting data that is reflexive on the conflict key is a no-op. -/
theorem createManySkip_idem {Row : Type} (conflict : Row → Row → Bool)
    (table data : List Row) (hrefl : ∀ r ∈ data, conflict r r = true) :
    createManySkip conflict (createManySkip conflict table data) data =
      createManySkip conflict table data :=
  createManySkip_eq_of_all_conflict conflict fun r hr =>
    createManySkip_all_conflict conflict data hrefl table r hr

theorem applyScalarUpdates_map_qid (now : Int) :
    ∀ (us : List ScalarUpdate) (gs : List GameRecord),
      (applyScalarUpdates now us gs).map (·.qid) = gs.map (·.qid) := by
  intro us
  induction us with
  | nil => intro gs; rfl
  | cons u us ih =>
    intro gs
    show (applyScalarUpdates now us _).map (·.qid) = _
    rw [ih, List.map_map]
    apply List.map_congr_left
    intro g _
    show (if g.qid = u.qid then applyGamePatch g u.data now else g).qid = g.qid
    by_cases hg : g.qid = u.qid
    · rw [if_pos hg]; rfl
    · rw [if_neg hg]

theorem any_eq_of_map_qid_eq {gs hs : List GameRecord}
    (h : gs.map (·.qid) = hs.map (·.qid)) (q : String) :
    gs.any (·.qid = q) = hs.any (·.qid = q) := by
  have h1 : ∀ (l : List GameRecord),
      l.any (·.qid = q) = (l.map (·.qid)).any (· = q) := by
    intro l
    induction l with
    | nil => rfl
    | cons g t ih => simp only [List.any_cons, List.map_cons, ih]
  rw [h1, h1, h]

/-- A pass of the pipeline does not change which game qids exist. -/
theorem any_qid_runOnce (now : Int) (qids : List String)
    (entries : List PropertyRegistryEntry) (S : Store) (q : String) :
    (runOnce now qids entries S).games.any (·.qid = q) =
      S.games.any (·.qid = q) := by
  rw [runOnce_games]
  exact any_eq_of_map_qid_eq (applyScalarUpdates_map_qid now _ S.games) q

theorem runOnce_tags (now : Int) (qids : List String)
    (entries : List PropertyRegistryEntry) (S : Store) :
    (runOnce now qids entries S).tags =
      createManySkip tagConflict S.tags
        ((parseBatch (readGames S qids) entries).tagsToCreate.map (·.2)) := rfl

theorem runOnce_companies (now : Int) (qids : List String)
    (entries : List PropertyRegistryEntry) (S : Store) :
    (runOnce now qids entries S).companies =
      createManySkip companyConflict S.companies
        ((parseBatch (readGames S qids) entries).companiesToCreate.map (·.2)) := rfl

theorem runOnce_gamePlatform (now : Int) (qids : List String)
    (entries : List PropertyRegistryEntry) (S : Store) :
    (runOnce now qids entries S).gamePlatform =
      createManySkip gamePlatformConflict
        (S.gamePlatform.filter
          (fun r => ¬((readGames S qids).map (·.qid)).contains r.gameQid))
        ((parseBatch (readGames S qids) entries).gamePlatformRows.filter
          (fun row => S.platforms.any (·.qid = row.platformQid))) := rfl

theorem runOnce_gameTag (now : Int) (qids : List String)
    (entries : List PropertyRegistryEntry) (S : Store) :
    (runOnce now qids entries S).gameTag =
      createManySkip gameTagConflict
        (S.gameTag.filter
          (fun r => ¬((readGames S qids).map (·.qid)).contains r.gameQid))
        (parseBatch (readGames S qids) entries).gameTagRows := rfl

theorem runOnce_gameCompany (now : Int) (qids : List String)
    (entries : List PropertyRegistryEntry) (S : Store) :
    (runOnce now qids entries S).gameCompany =
      createManySkip gameCompanyConflict
        (S.gameCompany.filter
          (fun r => ¬((readGames S qids).map (·.qid)).contains r.gameQid))
        (parseBatch (readGames S qids) entries).gameCompanyRows := rfl

theorem runOnce_gameRelation (now : Int) (qids : List String)
    (entries : List PropertyRegistryEntry) (S : Store) :
    (runOnce now qids entries S).gameRelation =
      createManySkip gameRelationConflict
        (S.gameRelation.filter
          (fun r => ¬((readGames S qids).map (·.qid)).contains r.fromGameQid))
        ((parseBatch (readGames S qids) entries).gameRelationRows.filter
          (fun row => S.games.any (·.qid = row.toGameQid))) := rfl

theorem runOnce_releaseDate (now : Int) (qids : List String)
    (entries : List PropertyRegistryEntry) (S : Store) :
    (runOnce now qids entries S).releaseDate =
      createManySkip releaseDateConflict
        (S.releaseDate.filter
          (fun r => ¬((readGames S qids).map (·.qid)).contains r.gameQid))
        (parseBatch (readGames S qids) entries).releaseDateRows := rfl

theorem runOnce_website (now : Int) (qids : List String)
    (entries : List PropertyRegistryEntry) (S : Store) :
    (runOnce now qids entries S).website =
      createManySkip websiteConflict
        (S.website.filter
          (fun r => ¬((readGames S qids).map (·.qid)).contains r.gameQid))
        (parseBatch (readGames S qids) entries).websiteRows := rfl

theorem runOnce_externalGame (now : Int) (qids : List String)
    (entries : List PropertyRegistryEntry) (S : Store) :
    (runOnce now qids entries S).externalGame =
      createManySkip externalGameConflict
        (S.externalGame.filter
          (fun r => ¬((readGames S qids).map (·.qid)).contains r.gameQid))
        (parseBatch (readGames S qids) entries).externalGameRows := rfl

theorem runOnce_gameImage (now : Int) (qids : List String)
    (entries : List PropertyRegistryEntry) (S : Store) :
    (runOnce now qids entries S).gameImage =
      createManySkip gameImageConflict
        (S.gameImage.filter
          (fun r => ¬((readGames S qids).map (·.qid)).contains r.gameQid))
        (parseBatch (readGames S qids) entries).imageRows := rfl

theorem runOnce_gameVideo (now : Int) (qids : List String)
    (entries : List PropertyRegistryEntry) (S : Store) :
    (runOnce now qids entries S).gameVideo =
      createManySkip gameVideoConflict
        (S.gameVideo.filter
          (fun r => ¬((readGames S qids).map (·.qid)).contains r.gameQid))
        (parseBatch (readGames S qids) entries).videoRows := rfl

theorem runOnce_gameAgeRating (now : Int) (qids : List String)
    (entries : List PropertyRegistryEntry) (S : Store) :
    (runOnce now qids entries S).gameAgeRating =
      createManySkip gameAgeRatingConflict
        (S.gameAgeRating.filter
          (fun r => ¬((readGames S qids).map (·.qid)).contains r.gameQid))
        (parseBatch (readGames S qids) entries).ageRatingRows := rfl

/-- One full pass is a fixed point of a second pass over the same batch and
registry, for a store with distinct game qids and a registry with at most
one release-date entry and one image entry. -/
theorem runOnce_idem (entries : List PropertyRegistryEntry)
    (hrel : (entries.filter (·.target = "game.releaseDate")).length ≤ 1)
    (himg : (entries.filter (·.target = "game.image")).length ≤ 1)
    (now1 now2 : Int) (qids : List String) (S : Store)
    (hnodup : (S.games.map (·.qid)).Nodup) :
    runOnce now2 qids entries (runOnce now1 qids entries S) =
      runOnce now1 qids entries S := by
  have hkey := gameKey_readGames_runOnce now1 qids entries S
  have hrows := parseBatch_rows_congr hkey entries
  have hqid := qid_readGames_runOnce now1 qids entries S
  apply storeExt
  · rw [runOnce_platforms, runOnce_platforms]
  · rw [runOnce_games now2 qids entries (runOnce now1 qids entries S),
      second_scalarUpdates_nil entries hrel himg now1 qids S hnodup]
    rfl
  · rw [runOnce_tags now2 qids entries (runOnce now1 qids entries S),
      hrows.1, runOnce_tags now1 qids entries S]
    exact createManySkip_idem tagConflict S.tags _
      (fun r hr => by simp [tagConflict])
  · rw [runOnce_companies now2 qids entries (runOnce now1 qids entries S),
      hrows.2.1, runOnce_companies now1 qids entries S]
    exact createManySkip_idem companyConflict S.companies _
      (fun r hr => by simp [companyConflict])
  · rw [runOnce_gamePlatform now2 qids entries (runOnce now1 qids entries S),
      hqid, hrows.2.2.1, runOnce_platforms now1 qids entries S,
      runOnce_gamePlatform now1 qids entries S]
    exact delete_insert_idem gamePlatformConflict (fun r => r.gameQid) _ _ _
      (fun r hr => perGame_dedupe_key_mem (fun r => r.gameQid)
        (fun _ _ _ h => platformRowsFor_gameQid h) (List.mem_of_mem_filter hr))
  · rw [runOnce_gameTag now2 qids entries (runOnce now1 qids entries S),
      hqid, hrows.2.2.2.1, runOnce_gameTag now1 qids entries S]
    exact delete_insert_idem gameTagConflict (fun r => r.gameQid) _ _ _
      (fun r hr => perGame_dedupe_key_mem (fun r => r.gameQid)
        (fun _ _ _ h => tagRowsFor_gameQid h) hr)
  · rw [runOnce_gameCompany now2 qids entries (runOnce now1 qids entries S),
      hqid, hrows.2.2.2.2.1, runOnce_gameCompany now1 qids entries S]
    exact delete_insert_idem gameCompanyConflict (fun r => r.gameQid) _ _ _
      (fun r hr => perGame_dedupe_key_mem (fun r => r.gameQid)
        (fun _ _ _ h => companyRowsFor_gameQid h) hr)
  · rw [runOnce_gameRelation now2 qids entries (runOnce now1 qids entries S),
      hqid, hrows.2.2.2.2.2.1]
    rw [show (fun row : GameRelationRow =>
        (runOnce now1 qids entries S).games.any (·.qid = row.toGameQid)) =
        (fun row => S.games.any (·.qid = row.toGameQid)) from
      funext fun row => any_qid_runOnce now1 qids entries S row.toGameQid]
    rw [runOnce_gameRelation now1 qids entries S]
    exact delete_insert_idem gameRelationConflict (fun r => r.fromGameQid) _ _ _
      (fun r hr => perGame_dedupe_key_mem (fun r => r.fromGameQid)
        (fun _ _ _ h => relationRowsFor_fromGameQid h) (List.mem_of_mem_filter hr))
  · rw [runOnce_releaseDate now2 qids entries (runOnce now1 qids entries S),
      hqid, hrows.2.2.2.2.2.2.1, runOnce_releaseDate now1 qids entries S]
    exact delete_insert_idem releaseDateConflict (fun r => r.gameQid) _ _ _
      (fun r hr => perGame_dedupe_key_mem (fun r => r.gameQid)
        (fun _ _ _ h => releaseDateRowsFor_gameQid h) hr)
  · rw [runOnce_website now2 qids entries (runOnce now1 qids entries S),
      hqid, hrows.2.2.2.2.2.2.2.1, runOnce_website now1 qids entries S]
    exact delete_insert_idem websiteConflict (fun r => r.gameQid) _ _ _
      (fun r hr => perGame_dedupe_key_mem (fun r => r.gameQid)
        (fun _ _ _ h => websiteRowsFor_gameQid h) hr)
  · rw [runOnce_externalGame now2 qids entries (runOnce now1 qids entries S),
      hqid, hrows.2.2.2.2.2.2.2.2.1, runOnce_externalGame now1 qids entries S]
    exact delete_insert_idem externalGameConflict (fun r => r.gameQid) _ _ _
      (fun r hr => perGame_dedupe_key_mem (fun r => r.gameQid)
        (fun _ _ _ h => externalRowsFor_gameQid h) hr)
  · rw [runOnce_gameImage now2 qids entries (runOnce now1 qids entries S),
      hqid, hrows.2.2.2.2.2.2.2.2.2.1, runOnce_gameImage now1 qids entries S]
    exact delete_insert_idem gameImageConflict (fun r => r.gameQid) _ _ _
      (fun r hr => perGame_dedupe_key_mem (fun r => r.gameQid)
        (fun _ _ _ h => imageRowsFor_gameQid h) hr)
  · rw [runOnce_gameVideo now2 qids entries (runOnce now1 qids entries S),
      hqid, hrows.2.2.2.2.2.2.2.2.2.2.1, runOnce_gameVideo now1 qids entries S]
    exact delete_insert_idem gameVideoConflict (fun r => r.gameQid) _ _ _
      (fun r hr => perGame_dedupe_key_mem (fun r => r.gameQid)
        (fun _ _ _ h => videoRowsFor_gameQid h) hr)
  · rw [runOnce_gameAgeRating now2 qids entries (runOnce now1 qids entries S),
      hqid, hrows.2.2.2.2.2.2.2.2.2.2.2, runOnce_gameAgeRating now1 qids entries S]
    exact delete_insert_idem gameAgeRatingConflict (fun r => r.gameQid) _ _ _
      (fun r hr => perGame_dedupe_key_mem (fun r => r.gameQid)
        (fun _ _ _ h => ageRatingRowsFor_gameQid h) hr)

/-- C1: with the program's registry and a store whose game qids are distinct
(the `Game` primary key), running normalization plus batch write a second
time with the same batch leaves the store identical — every derived
relation row set and every scalar game field is unchanged — and after the
second application the rewritten batch region of each relation table is
free of duplicate rows on its unique key. -/
theorem C1_idempotent_rerun (now1 now2 : Int) (batchQids : List String)
    (includeNiche : Bool) (S : Store)
    (hnodup : (S.games.map (·.qid)).Nodup) :
    (runOnce now2 batchQids (getHydratableRegistryEntries includeNiche)
        (runOnce now1 batchQids (getHydratableRegistryEntries includeNiche) S) =
      runOnce now1 batchQids (getHydratableRegistryEntries includeNiche) S) ∧
    ((runOnce now2 batchQids (getHydratableRegistryEntries includeNiche)
        (runOnce now1 batchQids (getHydratableRegistryEntries includeNiche)
          S)).gamePlatform.filter
        (fun r => ((readGames S batchQids).map (·.qid)).contains r.gameQid)).Pairwise
      (fun a b => gamePlatformConflict a b = false) ∧
    ((runOnce now2 batchQids (getHydratableRegistryEntries includeNiche)
        (runOnce now1 batchQids (getHydratableRegistryEntries includeNiche)
          S)).gameTag.filter
        (fun r => ((readGames S batchQids).map (·.qid)).contains r.gameQid)).Pairwise
      (fun a b => gameTagConflict a b = false) ∧
    ((runOnce now2 batchQids (getHydratableRegistryEntries includeNiche)
        (runOnce now1 batchQids (getHydratableRegistryEntries includeNiche)
          S)).gameCompany.filter
        (fun r => ((readGames S batchQids).map (·.qid)).contains r.gameQid)).Pairwise
      (fun a b => gameCompanyConflict a b = false) ∧
    ((runOnce now2 batchQids (getHydratableRegistryEntries includeNiche)
        (runOnce now1 batchQids (getHydratableRegistryEntries includeNiche)
          S)).gameRelation.filter
        (fun r => ((readGames S batchQids).map (·.qid)).contains r.fromGameQid)).Pairwise
      (fun a b => gameRelationConflict a b = false) ∧
    ((runOnce now2 batchQids (getHydratableRegistryEntries includeNiche)
        (runOnce now1 batchQids (getHydratableRegistryEntries includeNiche)
          S)).releaseDate.filter
        (fun r => ((readGames S batchQids).map (·.qid)).contains r.gameQid)).Pairwise
      (fun a b => releaseDateConflict a b = false) ∧
    ((runOnce now2 batchQids (getHydratableRegistryEntries includeNiche)
        (runOnce now1 batchQids (getHydratableRegistryEntries includeNiche)
          S)).website.filter
        (fun r => ((readGames S batchQids).map (·.qid)).contains r.gameQid)).Pairwise
      (fun a b => websiteConflict a b = false) ∧
    ((runOnce now2 batchQids (getHydratableRegistryEntries includeNiche)
        (runOnce now1 batchQids (getHydratableRegistryEntries includeNiche)
          S)).externalGame.filter
        (fun r => ((readGames S batchQids).map (·.qid)).contains r.gameQid)).Pairwise
      (fun a b => externalGameConflict a b = false) ∧
    ((runOnce now2 batchQids (getHydratableRegistryEntries includeNiche)
        (runOnce now1 batchQids (getHydratableRegistryEntries includeNiche)
          S)).gameImage.filter
        (fun r => ((readGames S batchQids).map (·.qid)).contains r.gameQid)).Pairwise
      (fun a b => gameImageConflict a b = false) ∧
    ((runOnce now2 batchQids (getHydratableRegistryEntries includeNiche)
        (runOnce now1 batchQids (getHydratableRegistryEntries includeNiche)
          S)).gameVideo.filter
        (fun r => ((readGames S batchQids).map (·.qid)).contains r.gameQid)).Pairwise
      (fun a b => gameVideoConflict a b = false) ∧
    ((runOnce now2 batchQids (getHydratableRegistryEntries includeNiche)
        (runOnce now1 batchQids (getHydratableRegistryEntries includeNiche)
          S)).gameAgeRating.filter
        (fun r => ((readGames S batchQids).map (·.qid)).contains r.gameQid)).Pairwise
      (fun a b => gameAgeRatingConflict a b = false) := by
  have hrel : ((getHydratableRegistryEntries includeNiche).filter
      (·.target = "game.releaseDate")).length ≤ 1 := by
    cases includeNiche <;> decide
  have himg : ((getHydratableRegistryEntries includeNiche).filter
      (·.target = "game.image")).length ≤ 1 := by
    cases includeNiche <;> decide
  have hstore := runOnce_idem (getHydratableRegistryEntries includeNiche)
    hrel himg now1 now2 batchQids S hnodup
  refine ⟨hstore, ?_, ?_, ?_, ?_, ?_, ?_, ?_, ?_, ?_, ?_⟩ <;> rw [hstore]
  · rw [runOnce_gamePlatform now1 batchQids _ S]
    exact region_pairwise gamePlatformConflict (fun r => r.gameQid) _ _ _
      (fun r hr => perGame_dedupe_key_mem (fun r => r.gameQid)
        (fun _ _ _ h => platformRowsFor_gameQid h) (List.mem_of_mem_filter hr))
  · rw [runOnce_gameTag now1 batchQids _ S]
    exact region_pairwise gameTagConflict (fun r => r.gameQid) _ _ _
      (fun r hr => perGame_dedupe_key_mem (fun r => r.gameQid)
        (fun _ _ _ h => tagRowsFor_gameQid h) hr)
  · rw [runOnce_gameCompany now1 batchQids _ S]
    exact region_pairwise gameCompanyConflict (fun r => r.gameQid) _ _ _
      (fun r hr => perGame_dedupe_key_mem (fun r => r.gameQid)
        (fun _ _ _ h => companyRowsFor_gameQid h) hr)
  · rw [runOnce_gameRelation now1 batchQids _ S]
    exact region_pairwise gameRelationConflict (fun r => r.fromGameQid) _ _ _
      (fun r hr => perGame_dedupe_key_mem (fun r => r.fromGameQid)
        (fun _ _ _ h => relationRowsFor_fromGameQid h) (List.mem_of_mem_filter hr))
  · rw [runOnce_releaseDate now1 batchQids _ S]
    exact region_pairwise releaseDateConflict (fun r => r.gameQid) _ _ _
      (fun r hr => perGame_dedupe_key_mem (fun r => r.gameQid)
        (fun _ _ _ h => releaseDateRowsFor_gameQid h) hr)
  · rw [runOnce_website now1 batchQids _ S]
    exact region_pairwise websiteConflict (fun r => r.gameQid) _ _ _
      (fun r hr => perGame_dedupe_key_mem (fun r => r.gameQid)
        (fun _ _ _ h => websiteRowsFor_gameQid h) hr)
  · rw [runOnce_externalGame now1 batchQids _ S]
    exact region_pairwise externalGameConflict (fun r => r.gameQid) _ _ _
      (fun r hr => perGame_dedupe_key_mem (fun r => r.gameQid)
        (fun _ _ _ h => externalRowsFor_gameQid h) hr)
  · rw [runOnce_gameImage now1 batchQids _ S]
    exact region_pairwise gameImageConflict (fun r => r.gameQid) _ _ _
      (fun r hr => perGame_dedupe_key_mem (fun r => r.gameQid)
        (fun _ _ _ h => imageRowsFor_gameQid h) hr)
  · rw [runOnce_gameVideo now1 batchQids _ S]
    exact region_pairwise gameVideoConflict (fun r => r.gameQid) _ _ _
      (fun r hr => perGame_dedupe_key_mem (fun r => r.gameQid)
        (fun _ _ _ h => videoRowsFor_gameQid h) hr)
  · rw [runOnce_gameAgeRating now1 batchQids _ S]
    exact region_pairwise gameAgeRatingConflict (fun r => r.gameQid) _ _ _
      (fun r hr => perGame_dedupe_key_mem (fun r => r.gameQid)
        (fun _ _ _ h => ageRatingRowsFor_gameQid h) hr)

/-- Witness data for C1: a one-game store. -/
def storeC1 : Store :=
  { emptyStore with
    games := [{ qid := "Q1", title := "g", claimsJson := .obj [],
                releaseYear := none, firstReleaseAt := none,
                imageCommons := none, imageUrl := none, lastEnrichedAt := none }] }

/-- Witness for C1 at a concrete store and batch. -/
theorem C1_idempotent_rerun_witness :
    (storeC1.games.map (·.qid)).Nodup ∧
      runOnce 2 ["Q1"] (getHydratableRegistryEntries false)
          (runOnce 1 ["Q1"] (getHydratableRegistryEntries false) storeC1) =
        runOnce 1 ["Q1"] (getHydratableRegistryEntries false) storeC1 :=
  ⟨by decide, (C1_idempotent_rerun 1 2 ["Q1"] false storeC1 (by decide)).1⟩

end VGDB
